import Mathlib

/-!
# Wine `qcap` Video-for-Windows capture filter

A shallow embedding of `dlls/qcap/vfwcapture.c`: the stream lifecycle callbacks
(`vfw_capture_init_stream`, `vfw_capture_start_stream`, `vfw_capture_stop_stream`,
`vfw_capture_cleanup_stream`, `vfw_capture_wait_state`) and the format entry points
`AMStreamConfig_SetFormat`, `AMStreamConfig_GetFormat`,
`AMStreamConfig_GetNumberOfCapabilities`, `AMStreamConfig_GetStreamCaps`, the pin
callback `VfwPin_DecideBufferSize`, the acquisition thread `stream_thread`, and the
construction path `vfw_capture_create` and `PPB_Load`; and, of `dlls/user/text.c`, the
entry points `DrawTextW` and `DrawTextA`.

Conventions of the embedding.

* A C pointer that the code tests against `NULL` is a `Nat` address with `0` for `NULL`
  (`Option` for the `AM_MEDIA_TYPE *` argument of `SetFormat`); a pointer the code
  dereferences unconditionally is the value it points to.
* Calls into collaborators that live outside the file (the allocator, the peer pin, the
  filter graph, the capture backend, the thread API) are answered by a `Collaborators`
  record, and every such call is appended to the `calls` trace of the `Outcome`.
* `EnterCriticalSection` / `LeaveCriticalSection` and the `TRACE` / `ERR` logging have no
  effect on a single-threaded execution and are not recorded.
* The acquisition thread shares one variable with the controller, `filter->state`; the
  values it reads there are handed to `stream_thread` as a list.
-/

namespace VfwCapture

/-! ## Machine integers and status codes -/

/-- Reinterpretation of a 32-bit pattern as a signed `LONG` (two's complement). -/
def toLONG (n : Nat) : Int :=
  if n % 2 ^ 32 < 2 ^ 31 then ((n % 2 ^ 32 : Nat) : Int) else ((n % 2 ^ 32 : Nat) : Int) - 2 ^ 32

/-- Reinterpretation of a `LONG` as the unsigned 32-bit value with the same bits. -/
def toDWORD (x : Int) : Nat := (x % 2 ^ 32).toNat

/-- Result of a signed 32-bit operation, wrapped into the `int` range. -/
def wrapLONG (x : Int) : Int := (x + 2 ^ 31) % 2 ^ 32 - 2 ^ 31

/-- A COM status code, a signed 32-bit integer. -/
abbrev HRESULT := Int

/-- The `FAILED` test of `winerror.h`: the severity bit is set. -/
def FAILED (hr : HRESULT) : Bool := decide (hr < 0)

/-- The `SUCCEEDED` test of `winerror.h`. -/
def SUCCEEDED (hr : HRESULT) : Bool := decide (0 ≤ hr)

/-- Status `S_OK` of `winerror.h`. -/
def S_OK : HRESULT := 0
/-- Status `S_FALSE` of `winerror.h`. -/
def S_FALSE : HRESULT := 1
/-- Status `E_POINTER` of `winerror.h`. -/
def E_POINTER : HRESULT := toLONG 0x80004003
/-- Status `E_FAIL` of `winerror.h`. -/
def E_FAIL : HRESULT := toLONG 0x80004005
/-- Status `E_OUTOFMEMORY` of `winerror.h`. -/
def E_OUTOFMEMORY : HRESULT := toLONG 0x8007000E
/-- Status `VFW_E_INVALIDMEDIATYPE` of `vfwmsgs.h`. -/
def VFW_E_INVALIDMEDIATYPE : HRESULT := toLONG 0x80040200
/-- Status `VFW_E_NOT_COMMITTED` of `vfwmsgs.h`. -/
def VFW_E_NOT_COMMITTED : HRESULT := toLONG 0x80040211
/-- Status `VFW_E_NOT_STOPPED` of `vfwmsgs.h`. -/
def VFW_E_NOT_STOPPED : HRESULT := toLONG 0x80040224
/-- Status `VFW_S_CANT_CUE` of `vfwmsgs.h`. -/
def VFW_S_CANT_CUE : HRESULT := 0x00040268

/-- A kernel object handle; `0` is `NULL`. -/
abbrev HANDLE := Nat

/-- The null handle. -/
def NULL : HANDLE := 0

/-- The `INFINITE` timeout of `winbase.h`. -/
def INFINITE : Nat := 0xFFFFFFFF

/-! ## Data model -/

/-- Filter states of `strmif.h`. -/
inductive FILTER_STATE where
  | State_Stopped
  | State_Paused
  | State_Running
  deriving DecidableEq, Repr

open FILTER_STATE

/-- A GUID, as its 128-bit value. -/
abbrev GUID := Nat

/-- The GUID `MEDIATYPE_Video` of `uuids.h`, 73646976-0000-0010-8000-00AA00389B71. -/
def MEDIATYPE_Video : GUID := 0x7364697600000010800000AA00389B71

/-- Comparison `IsEqualGUID` of `guiddef.h`. -/
def IsEqualGUID (a b : GUID) : Bool := decide (a = b)

/-- The fields of `BITMAPINFOHEADER` read by this file: `LONG biWidth`, `LONG biHeight`,
`WORD biBitCount`. -/
structure BITMAPINFOHEADER where
  biWidth : Int
  biHeight : Int
  biBitCount : Nat
  deriving DecidableEq, Repr

/-- The format block of a video media type. -/
structure VIDEOINFOHEADER where
  bmiHeader : BITMAPINFOHEADER
  deriving DecidableEq, Repr

/-- A media type. `pbFormat` is the format block the pointer of that name refers to, read
as a `VIDEOINFOHEADER` the way `get_image_size` casts it. -/
structure AM_MEDIA_TYPE where
  majortype : GUID
  subtype : GUID
  cbFormat : Nat
  pbFormat : VIDEOINFOHEADER
  deriving DecidableEq, Repr

/-- The size in bytes of `VIDEOINFOHEADER` (`amvideo.h`): two `RECT`s, two `DWORD`s, a
`REFERENCE_TIME` and a 40-byte `BITMAPINFOHEADER`. -/
def sizeof_VIDEOINFOHEADER : Nat := 88

/-- The capability record `VIDEO_STREAM_CONFIG_CAPS` of `strmif.h`. The filter hands it
through as a `BYTE *` without reading it, so it is kept as its bytes. -/
structure VIDEO_STREAM_CONFIG_CAPS where
  bytes : List Nat
  deriving DecidableEq, Repr

/-- The size in bytes of `VIDEO_STREAM_CONFIG_CAPS` (`strmif.h`). -/
def sizeof_VIDEO_STREAM_CONFIG_CAPS : Nat := 128

/-- Allocator properties of `strmif.h`; all four fields are `long`. -/
structure ALLOCATOR_PROPERTIES where
  cBuffers : Int
  cbBuffer : Int
  cbAlign : Int
  cbPrefix : Int
  deriving DecidableEq, Repr

/-- The fields of `struct strmbase_filter` this file reads: the framework's copy of the
filter state and the graph pointer. -/
structure strmbase_filter where
  state : FILTER_STATE
  graph : Nat
  deriving DecidableEq, Repr

/-- The fields of `struct strmbase_pin` this file reads: the peer pointer and the
negotiated media type. -/
structure strmbase_pin where
  peer : Nat
  mt : AM_MEDIA_TYPE
  deriving DecidableEq, Repr

/-- The fields of `struct strmbase_source` this file reads. -/
structure strmbase_source where
  pin : strmbase_pin
  pAllocator : Nat
  pMemInputPin : Nat
  deriving DecidableEq, Repr

/-- The capture filter, `struct vfw_capture`. The interface vtables, the condition variable
and the critical section carry no data of their own and are left out. `state` is the
filter's own state variable, guarded by `state_cs`; `filter.state` is the one kept by the
framework. -/
structure vfw_capture where
  filter : strmbase_filter
  init : Bool
  source : strmbase_source
  device : Nat
  state : FILTER_STATE
  thread : HANDLE
  deriving DecidableEq, Repr

/-! ## Collaborators and traces -/

/-- A call made by the filter into a collaborator, with its arguments. -/
inductive Call where
  | IMemAllocator_SetProperties (allocator : Nat) (req : ALLOCATOR_PROPERTIES)
  | IMemAllocator_Commit (allocator : Nat)
  | IMemAllocator_Decommit (allocator : Nat)
  | CreateThread
  | WakeConditionVariable
  | WaitForSingleObject (h : HANDLE) (timeout : Nat)
  | CloseHandle (h : HANDLE)
  | IPin_QueryAccept (peer : Nat) (mt : AM_MEDIA_TYPE)
  | set_format (device : Nat) (mt : AM_MEDIA_TYPE)
  | IFilterGraph_Reconnect (graph : Nat)
  | get_format (device : Nat)
  | get_caps_count (device : Nat)
  | get_caps (device : Nat) (index : Int)
  | IPropertyBag_Read
  | create (index : Int)
  | SleepConditionVariableCS
  | GetDeliveryBuffer (hr : HRESULT) (sample : Nat)
  | IMediaSample_SetActualDataLength (sample : Nat) (length : Nat)
  | IMediaSample_GetPointer (sample : Nat)
  | read_frame (device : Nat) (sample : Nat)
  | IMemInputPin_Receive (pin : Nat) (sample : Nat)
  | IMediaSample_Release (sample : Nat)
  deriving DecidableEq, Repr

/-- Whether a call is one of the allocator's methods. -/
def Call.isAllocatorCall : Call → Bool
  | .IMemAllocator_SetProperties _ _ => true
  | .IMemAllocator_Commit _ => true
  | .IMemAllocator_Decommit _ => true
  | _ => false

/-- Whether a call is `IMemAllocator::Commit`. -/
def Call.isCommit : Call → Bool
  | .IMemAllocator_Commit _ => true
  | _ => false

/-- Whether a call is `IMemAllocator::Decommit`. -/
def Call.isDecommit : Call → Bool
  | .IMemAllocator_Decommit _ => true
  | _ => false

/-- Whether a call is `CreateThread`. -/
def Call.isCreateThread : Call → Bool
  | .CreateThread => true
  | _ => false

/-- Whether a call goes to the peer's `QueryAccept`, the backend's `set_format` or the
graph's `Reconnect`. -/
def Call.isFormatCall : Call → Bool
  | .IPin_QueryAccept _ _ => true
  | .set_format _ _ => true
  | .IFilterGraph_Reconnect _ => true
  | _ => false

/-- Whether a call is the backend's `get_caps`. -/
def Call.isGetCaps : Call → Bool
  | .get_caps _ _ => true
  | _ => false

/-- Whether a call is `BaseOutputPinImpl_GetDeliveryBuffer`, whatever it answered. -/
def Call.isGetDeliveryBuffer : Call → Bool
  | .GetDeliveryBuffer _ _ => true
  | _ => false

/-- Whether a call is a `BaseOutputPinImpl_GetDeliveryBuffer` that did not fail, that is,
one that handed out a sample. -/
def Call.isAcquire : Call → Bool
  | .GetDeliveryBuffer hr _ => !FAILED hr
  | _ => false

/-- Whether a call is a `BaseOutputPinImpl_GetDeliveryBuffer` that handed out the sample
`s`. -/
def Call.acquires (s : Nat) : Call → Bool
  | .GetDeliveryBuffer hr sample => !FAILED hr && decide (sample = s)
  | _ => false

/-- Whether a call is `IMediaSample_Release`. -/
def Call.isRelease : Call → Bool
  | .IMediaSample_Release _ => true
  | _ => false

/-- Whether a call is `IMediaSample_Release` of the sample `s`. -/
def Call.releases (s : Nat) : Call → Bool
  | .IMediaSample_Release sample => decide (sample = s)
  | _ => false

/-- Whether a call is `IMediaSample_SetActualDataLength`. -/
def Call.isSetActualDataLength : Call → Bool
  | .IMediaSample_SetActualDataLength _ _ => true
  | _ => false

/-- Whether a call is the backend's `read_frame`. -/
def Call.isReadFrame : Call → Bool
  | .read_frame _ _ => true
  | _ => false

/-- Whether a call is the peer's `IMemInputPin::Receive`. -/
def Call.isReceive : Call → Bool
  | .IMemInputPin_Receive _ _ => true
  | _ => false

/-- The answers of the collaborators: what each external call returns for its arguments.
`IMemAllocator_SetProperties` answers with the status and the properties actually
granted (`ret_props`); `CreateThread` answers with the new thread's handle.
The backend's `get_format` answers with what it writes into the media type and into the
format block it is handed; `get_caps_count` answers with an `int`; `get_caps` answers, for
an `int` index, with what it writes into the media type, the format block and the
capability record. `CoTaskMemAlloc k` tells whether the allocation number `k` (counted
from 0) made during one call of a filter function returns a non-null block.
`IPropertyBag_Read` answers with the status and the `VT_I4` value read for `VFWIndex`;
`create` answers with the device pointer for an index, `0` for `NULL`.
For the acquisition thread, `GetDeliveryBuffer k`, `read_frame k` and
`IMemInputPin_Receive k` are the answers to call number `k` (counted from 0) of
`BaseOutputPinImpl_GetDeliveryBuffer` (status and sample pointer), of the backend's
`read_frame` and of the peer's `Receive`. -/
structure Collaborators where
  IMemAllocator_SetProperties : Nat → ALLOCATOR_PROPERTIES → HRESULT × ALLOCATOR_PROPERTIES
  IMemAllocator_Commit : Nat → HRESULT
  IMemAllocator_Decommit : Nat → HRESULT
  CreateThread : HANDLE
  IPin_QueryAccept : Nat → AM_MEDIA_TYPE → HRESULT
  set_format : Nat → AM_MEDIA_TYPE → HRESULT
  IFilterGraph_Reconnect : Nat → HRESULT
  get_format : Nat → AM_MEDIA_TYPE × VIDEOINFOHEADER
  get_caps_count : Nat → Int
  get_caps : Nat → Int → AM_MEDIA_TYPE × VIDEOINFOHEADER × VIDEO_STREAM_CONFIG_CAPS
  CoTaskMemAlloc : Nat → Bool
  IPropertyBag_Read : HRESULT × Int
  create : Int → Nat
  GetDeliveryBuffer : Nat → HRESULT × Nat
  read_frame : Nat → Bool
  IMemInputPin_Receive : Nat → HRESULT

/-- What a call of one of the filter's functions leaves behind: the returned status, the
filter afterwards and the collaborator calls made, in order. -/
structure Outcome where
  hr : HRESULT
  filter : vfw_capture
  calls : List Call
  deriving DecidableEq, Repr

/-- What `AMStreamConfig_GetFormat` leaves behind: as `Outcome`, and the media type stored
through the out-pointer, `none` when no valid media type is handed back. -/
structure FormatOutcome where
  hr : HRESULT
  filter : vfw_capture
  calls : List Call
  mt : Option AM_MEDIA_TYPE
  deriving DecidableEq, Repr

/-- What `AMStreamConfig_GetNumberOfCapabilities` leaves behind: as `Outcome`, and the
values stored through `count` and `size`, `none` when nothing is stored. -/
structure CountOutcome where
  hr : HRESULT
  filter : vfw_capture
  calls : List Call
  count : Option Int
  size : Option Nat
  deriving DecidableEq, Repr

/-- What `AMStreamConfig_GetStreamCaps` leaves behind: as `Outcome`, the media type stored
through `pmt` and the capability record written to `vscc`, `none` when not written. -/
structure CapsOutcome where
  hr : HRESULT
  filter : vfw_capture
  calls : List Call
  pmt : Option AM_MEDIA_TYPE
  vscc : Option VIDEO_STREAM_CONFIG_CAPS
  deriving DecidableEq, Repr

/-- What `VfwPin_DecideBufferSize` leaves behind: the returned status, the request as the
function has rewritten it in place, and the collaborator calls made. -/
structure BufferSizeOutcome where
  hr : HRESULT
  request : ALLOCATOR_PROPERTIES
  calls : List Call
  deriving DecidableEq, Repr

/-- What a run of `stream_thread` leaves behind: whether the thread function has returned
(`false` when the observations of the state ran out while it was still in its loop) and
the collaborator calls made, in order. -/
structure ThreadOutcome where
  returned : Bool
  calls : List Call
  deriving DecidableEq, Repr

/-- What `vfw_capture_create` leaves behind: the returned status and the object stored
through `out`, `none` when none is created. -/
structure CreateOutcome where
  hr : HRESULT
  object : Option vfw_capture
  deriving DecidableEq, Repr

/-! ## The functions of `vfwcapture.c` -/

/-- Function `get_image_size`: `biWidth * biHeight * biBitCount / 8`, computed in `int`
(the products wrap to 32 bits, the division truncates toward zero) and returned as
`unsigned int`. -/
def get_image_size (filter : vfw_capture) : Nat :=
  let format := filter.source.pin.mt.pbFormat
  toDWORD (Int.tdiv
    (wrapLONG (wrapLONG (wrapLONG format.bmiHeader.biWidth * wrapLONG format.bmiHeader.biHeight)
      * (format.bmiHeader.biBitCount % 2 ^ 16 : Nat))) 8)

/-- Function `vfw_capture_init_stream`. -/
def vfw_capture_init_stream (env : Collaborators) (filter : vfw_capture) : Outcome :=
  let req_props : ALLOCATOR_PROPERTIES :=
    { cBuffers := 3, cbBuffer := toLONG (get_image_size filter), cbAlign := 1, cbPrefix := 0 }
  let hr := (env.IMemAllocator_SetProperties filter.source.pAllocator req_props).1
  if FAILED hr then
    { hr := hr, filter := filter,
      calls := [Call.IMemAllocator_SetProperties filter.source.pAllocator req_props] }
  else
    -- the status of Commit is logged on failure and otherwise dropped
    let _hr := env.IMemAllocator_Commit filter.source.pAllocator
    let filter := { filter with state := State_Paused }
    let filter := { filter with thread := env.CreateThread }
    { hr := S_OK, filter := filter,
      calls := [Call.IMemAllocator_SetProperties filter.source.pAllocator req_props,
                Call.IMemAllocator_Commit filter.source.pAllocator,
                Call.CreateThread] }

/-- Function `vfw_capture_start_stream`; `time` is the `REFERENCE_TIME` argument. -/
def vfw_capture_start_stream (filter : vfw_capture) (_time : Int) : Outcome :=
  { hr := S_OK, filter := { filter with state := State_Running },
    calls := [Call.WakeConditionVariable] }

/-- Function `vfw_capture_stop_stream`. -/
def vfw_capture_stop_stream (filter : vfw_capture) : Outcome :=
  { hr := S_OK, filter := { filter with state := State_Paused }, calls := [] }

/-- Function `vfw_capture_cleanup_stream`. -/
def vfw_capture_cleanup_stream (env : Collaborators) (filter : vfw_capture) : Outcome :=
  let thread := filter.thread
  let filter := { filter with state := State_Stopped }
  let filter := { filter with thread := NULL }
  -- the status of Decommit is logged unless it is S_OK or VFW_E_NOT_COMMITTED, then dropped
  let _hr := env.IMemAllocator_Decommit filter.source.pAllocator
  { hr := S_OK, filter := filter,
    calls := [Call.WakeConditionVariable,
              Call.WaitForSingleObject thread INFINITE,
              Call.CloseHandle thread,
              Call.IMemAllocator_Decommit filter.source.pAllocator] }

/-- Function `vfw_capture_wait_state`. Its `iface` argument is the `struct strmbase_filter`
embedded in the capture filter, so `iface->state` is `filter.filter.state`; `timeout` is
the `DWORD` argument. -/
def vfw_capture_wait_state (filter : vfw_capture) (_timeout : Nat) : Outcome :=
  { hr := if filter.filter.state = State_Paused then VFW_S_CANT_CUE else S_OK,
    filter := filter, calls := [] }

/-- Function `AMStreamConfig_SetFormat`; `pmt` is `none` for a `NULL` media type. -/
def AMStreamConfig_SetFormat (env : Collaborators) (This : vfw_capture)
    (pmt : Option AM_MEDIA_TYPE) : Outcome :=
  if This.filter.state ≠ State_Stopped then
    { hr := VFW_E_NOT_STOPPED, filter := This, calls := [] }
  else
    match pmt with
    | none => { hr := E_POINTER, filter := This, calls := [] }
    | some mt =>
      if !IsEqualGUID mt.majortype MEDIATYPE_Video then
        { hr := E_FAIL, filter := This, calls := [] }
      else
        let probe : List Call :=
          if This.source.pin.peer ≠ 0 then [Call.IPin_QueryAccept This.source.pin.peer mt] else []
        if This.source.pin.peer ≠ 0 ∧ env.IPin_QueryAccept This.source.pin.peer mt = S_FALSE then
          { hr := VFW_E_INVALIDMEDIATYPE, filter := This, calls := probe }
        else
          let hr := env.set_format This.device mt
          if SUCCEEDED hr ∧ This.filter.graph ≠ 0 ∧ This.source.pin.peer ≠ 0 then
            { hr := env.IFilterGraph_Reconnect This.filter.graph, filter := This,
              calls := probe ++ [Call.set_format This.device mt,
                                 Call.IFilterGraph_Reconnect This.filter.graph] }
          else
            { hr := hr, filter := This, calls := probe ++ [Call.set_format This.device mt] }

/-- Modelled from the spec: `CopyMediaType` is a helper of the strmbase library and is not
among the sources. The spec has the connected case of get-format return "the negotiated
FormatDescriptor from the Output Port", so the copy equals its source; the helper
allocates the copy's format block, and answers `E_OUTOFMEMORY` when that allocation
(`allocated = false`) fails. -/
def CopyMediaType (allocated : Bool) (src : AM_MEDIA_TYPE) : HRESULT × AM_MEDIA_TYPE :=
  if allocated then (S_OK, src) else (E_OUTOFMEMORY, src)

/-- Function `AMStreamConfig_GetFormat`. Allocation 0 is the media type, allocation 1 the
format block (made by `CopyMediaType` when a peer is connected). -/
def AMStreamConfig_GetFormat (env : Collaborators) (filter : vfw_capture) : FormatOutcome :=
  if !env.CoTaskMemAlloc 0 then
    { hr := E_OUTOFMEMORY, filter := filter, calls := [], mt := none }
  else if filter.source.pin.peer ≠ 0 then
    let copy := CopyMediaType (env.CoTaskMemAlloc 1) filter.source.pin.mt
    if SUCCEEDED copy.1 then
      { hr := copy.1, filter := filter, calls := [], mt := some copy.2 }
    else
      { hr := copy.1, filter := filter, calls := [], mt := none }
  else if env.CoTaskMemAlloc 1 then
    let answer := env.get_format filter.device
    { hr := S_OK, filter := filter, calls := [Call.get_format filter.device],
      mt := some { answer.1 with cbFormat := sizeof_VIDEOINFOHEADER, pbFormat := answer.2 } }
  else
    { hr := E_OUTOFMEMORY, filter := filter, calls := [], mt := none }

/-- Function `AMStreamConfig_GetNumberOfCapabilities`; `count` and `size` tell whether the
out-pointers of those names are non-null. -/
def AMStreamConfig_GetNumberOfCapabilities (env : Collaborators) (filter : vfw_capture)
    (count size : Bool) : CountOutcome :=
  if !count || !size then
    { hr := E_POINTER, filter := filter, calls := [], count := none, size := none }
  else
    { hr := S_OK, filter := filter, calls := [Call.get_caps_count filter.device],
      count := some (env.get_caps_count filter.device),
      size := some sizeof_VIDEO_STREAM_CONFIG_CAPS }

/-- Function `AMStreamConfig_GetStreamCaps`; `index` is an `int`. Allocation 0 is the media
type, allocation 1 the format block. -/
def AMStreamConfig_GetStreamCaps (env : Collaborators) (filter : vfw_capture)
    (index : Int) : CapsOutcome :=
  if index > env.get_caps_count filter.device then
    { hr := S_FALSE, filter := filter, calls := [Call.get_caps_count filter.device],
      pmt := none, vscc := none }
  else if !env.CoTaskMemAlloc 0 then
    { hr := E_OUTOFMEMORY, filter := filter, calls := [Call.get_caps_count filter.device],
      pmt := none, vscc := none }
  else if !env.CoTaskMemAlloc 1 then
    { hr := E_OUTOFMEMORY, filter := filter, calls := [Call.get_caps_count filter.device],
      pmt := none, vscc := none }
  else
    let answer := env.get_caps filter.device index
    { hr := S_OK, filter := filter,
      calls := [Call.get_caps_count filter.device, Call.get_caps filter.device index],
      pmt := some { answer.1 with cbFormat := sizeof_VIDEOINFOHEADER,
                                  pbFormat := answer.2.1 },
      vscc := some answer.2.2 }

/-- Function `VfwPin_DecideBufferSize`; `pAlloc` is the allocator it is handed and
`ppropInputRequest` the request it rewrites in place. The `iface` argument is not used. -/
def VfwPin_DecideBufferSize (env : Collaborators) (pAlloc : Nat)
    (ppropInputRequest : ALLOCATOR_PROPERTIES) : BufferSizeOutcome :=
  let req := ppropInputRequest
  let req := if req.cBuffers = 0 then { req with cBuffers := 3 } else req
  let req := if req.cbBuffer = 0 then { req with cbBuffer := 230400 } else req
  let req := if req.cbAlign = 0 then { req with cbAlign := 1 } else req
  { hr := (env.IMemAllocator_SetProperties pAlloc req).1, request := req,
    calls := [Call.IMemAllocator_SetProperties pAlloc req] }

/-- The calls with which an iteration of `stream_thread` that obtained the sample `sample`
starts: the acquisition itself, `SetActualDataLength` with the image size, `GetPointer`
and the backend's `read_frame`. -/
def stream_thread_fill (filter : vfw_capture) (image_size : Nat) (hr : HRESULT)
    (sample : Nat) : List Call :=
  [Call.GetDeliveryBuffer hr sample,
   Call.IMediaSample_SetActualDataLength sample image_size,
   Call.IMediaSample_GetPointer sample,
   Call.read_frame filter.device sample]

/-- The `for (;;)` loop of `stream_thread`. `image_size` is the local constant computed
before the loop, `n` the number of iterations that got past the state test so far. The
list holds the values of `filter->state` the thread reads under `state_cs`, one for each
time it takes the lock or wakes from `SleepConditionVariableCS`; the state is written by
the controller, so its values are an input. -/
def stream_thread_loop (env : Collaborators) (filter : vfw_capture) (image_size : Nat) :
    List FILTER_STATE → Nat → ThreadOutcome
  | [], _ => { returned := false, calls := [] }
  | State_Paused :: states, n =>
    let rest := stream_thread_loop env filter image_size states n
    { rest with calls := Call.SleepConditionVariableCS :: rest.calls }
  | State_Stopped :: _, _ => { returned := true, calls := [] }
  | State_Running :: states, n =>
    let got := env.GetDeliveryBuffer n
    if FAILED got.1 then
      { returned := true, calls := [Call.GetDeliveryBuffer got.1 got.2] }
    else if !env.read_frame n then
      { returned := true,
        calls := stream_thread_fill filter image_size got.1 got.2 ++
          [Call.IMediaSample_Release got.2] }
    else
      let hr := env.IMemInputPin_Receive n
      let delivered := stream_thread_fill filter image_size got.1 got.2 ++
        [Call.IMemInputPin_Receive filter.source.pMemInputPin got.2,
         Call.IMediaSample_Release got.2]
      if FAILED hr then
        { returned := true, calls := delivered }
      else
        let rest := stream_thread_loop env filter image_size states (n + 1)
        { rest with calls := delivered ++ rest.calls }

/-- Function `stream_thread`; `filter` is its argument as it stands when the thread
starts, `states` the values of `filter->state` it observes. -/
def stream_thread (env : Collaborators) (filter : vfw_capture)
    (states : List FILTER_STATE) : ThreadOutcome :=
  let image_size := get_image_size filter
  stream_thread_loop env filter image_size states 0

/-- Function `PPB_Load`. -/
def PPB_Load (env : Collaborators) (filter : vfw_capture) : Outcome :=
  let read := env.IPropertyBag_Read
  if FAILED read.1 then
    { hr := read.1, filter := filter, calls := [Call.IPropertyBag_Read] }
  else
    let filter := { filter with device := env.create read.2 }
    if filter.device = 0 then
      { hr := E_FAIL, filter := filter,
        calls := [Call.IPropertyBag_Read, Call.create read.2] }
    else
      { hr := S_OK, filter := { filter with init := true },
        calls := [Call.IPropertyBag_Read, Call.create read.2] }

/-- Modelled from the spec: `strmbase_filter_init` and `strmbase_source_init` are helpers
of the strmbase library and are not among the sources. The object they initialise comes
zeroed from `calloc`, and the spec has the stage start in "Stopped (initial)" with a peer
reference that "may be absent", so the framework part is `State_Stopped` outside any graph
and the pin has no peer, an all-zero media type and no allocator. -/
def strmbase_init : strmbase_filter × strmbase_source :=
  ({ state := State_Stopped, graph := 0 },
   { pin := { peer := 0,
              mt := { majortype := 0, subtype := 0, cbFormat := 0,
                      pbFormat := { bmiHeader := { biWidth := 0, biHeight := 0,
                                                   biBitCount := 0 } } } },
     pAllocator := 0, pMemInputPin := 0 })

/-- Function `vfw_capture_create`. `loaded` tells whether the one-time load left a
non-null `capture_funcs`, `allocated` whether `calloc` returned an object. The pin of the
new object is not connected: its format block and its allocator are null pointers, for
which the zero values stand, so `get_image_size` and `vfw_capture_init_stream`, which
dereference them, say nothing about this object before its pin is connected. -/
def vfw_capture_create (loaded allocated : Bool) : CreateOutcome :=
  if !loaded then { hr := E_FAIL, object := none }
  else if !allocated then { hr := E_OUTOFMEMORY, object := none }
  else
    { hr := S_OK,
      object := some { filter := strmbase_init.1, init := false, source := strmbase_init.2,
                       device := 0, state := State_Stopped, thread := NULL } }

/-- The four stream callbacks of `filter_ops` a controller drives the filter with: Prepare
(`filter_init_stream`), Run (`filter_start_stream`, with its start time), Pause
(`filter_stop_stream`) and Cleanup (`filter_cleanup_stream`). -/
inductive Transition where
  | Prepare
  | Run (time : Int)
  | Pause
  | Cleanup
  deriving DecidableEq, Repr

/-- The callback of `vfwcapture.c` behind each transition. -/
def Transition.apply (env : Collaborators) (filter : vfw_capture) : Transition → Outcome
  | .Prepare => vfw_capture_init_stream env filter
  | .Run time => vfw_capture_start_stream filter time
  | .Pause => vfw_capture_stop_stream filter
  | .Cleanup => vfw_capture_cleanup_stream env filter

/-- The state the spec's transition table expects after each transition: Prepare leads to
Paused, Run to Running, Pause to Paused, Cleanup to Stopped. -/
def Transition.expected : Transition → FILTER_STATE
  | .Prepare => State_Paused
  | .Run _ => State_Running
  | .Pause => State_Paused
  | .Cleanup => State_Stopped

/-- The spec's legal transitions: Prepare only from Stopped, Run only from Paused or
Running, Pause only from Running, Cleanup from any state once a Prepare has been done. -/
def Transition.legal (state : FILTER_STATE) (prepared : Bool) : Transition → Bool
  | .Prepare => decide (state = State_Stopped)
  | .Run _ => decide (state = State_Paused ∨ state = State_Running)
  | .Pause => decide (state = State_Running)
  | .Cleanup => prepared

/-- Whether a transition is Prepare. -/
def Transition.isPrepare : Transition → Bool
  | .Prepare => true
  | _ => false

/-- Whether every transition of a sequence is legal in the state the table gives for its
place, starting from `state`; `prepared` tells whether a Prepare has been done. -/
def legal_sequence (state : FILTER_STATE) (prepared : Bool) : List Transition → Bool
  | [] => true
  | t :: ts =>
    t.legal state prepared && legal_sequence t.expected (prepared || t.isPrepare) ts

/-- The outcomes of a sequence of transitions applied one after the other, each to the
filter the previous one left; `env k` holds the collaborators' answers during call number
`k`. -/
def run_transitions (env : Nat → Collaborators) (k : Nat) (filter : vfw_capture) :
    List Transition → List Outcome
  | [] => []
  | t :: ts =>
    t.apply (env k) filter :: run_transitions env (k + 1) (t.apply (env k) filter).filter ts

/-! ## The functions of `dlls/user/text.c` -/

/-- Flag `DT_TABSTOP` of `winuser.h`. -/
def DT_TABSTOP : Nat := 0x80

/-- The fields of `DRAWTEXTPARAMS` (`winuser.h`); `DrawTextW` and `DrawTextA` zero the
structure with `memset` before they use it. -/
structure DRAWTEXTPARAMS where
  cbSize : Nat
  iTabLength : Int
  iLeftMargin : Int
  iRightMargin : Int
  uiLengthDrawn : Nat
  deriving DecidableEq, Repr

/-- The arguments of a call of `DrawTextExW` or `DrawTextExA`: device context, text,
count, rectangle pointer, flags and parameter block. -/
structure DrawTextExCall where
  hdc : Nat
  str : List Nat
  count : Int
  rect : Nat
  flags : Nat
  dtp : DRAWTEXTPARAMS
  deriving DecidableEq, Repr

/-- The logical conjunction `a && b` of C on two unsigned values: 1 when both are non-zero,
0 otherwise. -/
def logical_and (a b : Nat) : Int := if a ≠ 0 ∧ b ≠ 0 then 1 else 0

/-- Function `DrawTextW`, as the call of `DrawTextExW` it returns the result of; `flags`
is a `UINT`. -/
def DrawTextW (hdc : Nat) (str : List Nat) (count : Int) (rect : Nat) (flags : Nat) :
    DrawTextExCall :=
  let dtp : DRAWTEXTPARAMS :=
    { cbSize := 0, iTabLength := 0, iLeftMargin := 0, iRightMargin := 0, uiLengthDrawn := 0 }
  if flags &&& DT_TABSTOP ≠ 0 then
    { hdc := hdc, str := str, count := count, rect := rect,
      flags := flags &&& 0xffff00ff,
      dtp := { dtp with iTabLength := logical_and (flags >>> 8) 0xff } }
  else
    { hdc := hdc, str := str, count := count, rect := rect, flags := flags, dtp := dtp }

/-- Function `DrawTextA`, as the call of `DrawTextExA` it returns the result of. -/
def DrawTextA (hdc : Nat) (str : List Nat) (count : Int) (rect : Nat) (flags : Nat) :
    DrawTextExCall :=
  let dtp : DRAWTEXTPARAMS :=
    { cbSize := 0, iTabLength := 0, iLeftMargin := 0, iRightMargin := 0, uiLengthDrawn := 0 }
  if flags &&& DT_TABSTOP ≠ 0 then
    { hdc := hdc, str := str, count := count, rect := rect,
      flags := flags &&& 0xffff00ff,
      dtp := { dtp with iTabLength := logical_and (flags >>> 8) 0xff } }
  else
    { hdc := hdc, str := str, count := count, rect := rect, flags := flags, dtp := dtp }

/-- The request `vfw_capture_init_stream` builds before it asks the allocator. -/
def init_stream_request (filter : vfw_capture) : ALLOCATOR_PROPERTIES :=
  { cBuffers := 3, cbBuffer := toLONG (get_image_size filter), cbAlign := 1, cbPrefix := 0 }

/-! ## Concrete filters and collaborators -/

/-- A 640 x 480 video media type at 16 bits per pixel. -/
def mt640x480x16 : AM_MEDIA_TYPE :=
  { majortype := MEDIATYPE_Video, subtype := 0, cbFormat := 88,
    pbFormat := { bmiHeader := { biWidth := 640, biHeight := 480, biBitCount := 16 } } }

/-- A 320 x 240 video media type at 24 bits per pixel. -/
def mt320x240x24 : AM_MEDIA_TYPE :=
  { majortype := MEDIATYPE_Video, subtype := 1, cbFormat := 88,
    pbFormat := { bmiHeader := { biWidth := 320, biHeight := 240, biBitCount := 24 } } }

/-- A freshly created filter with a device bound and its pin connected: both state
variables `State_Stopped`, no thread. -/
def stoppedFilter : vfw_capture :=
  { filter := { state := State_Stopped, graph := 1 },
    init := true,
    source := { pin := { peer := 2, mt := mt640x480x16 }, pAllocator := 3, pMemInputPin := 4 },
    device := 5,
    state := State_Stopped,
    thread := NULL }

/-- Collaborators that grant every request: every call answers `S_OK`, the allocator
grants what was asked and the thread API hands out handle 7. The backend's current format
is 320 x 240 x 24 and its catalogue has two entries, 640 x 480 x 16 at index 0 and
320 x 240 x 24 elsewhere; every memory allocation succeeds. The property bag holds index
0 and the backend opens device 9; the pool hands out the samples 100, 101, 102 in turn,
every frame read and every delivery succeeds. -/
def cooperating : Collaborators :=
  { IMemAllocator_SetProperties := fun _ req => (S_OK, req),
    IMemAllocator_Commit := fun _ => S_OK,
    IMemAllocator_Decommit := fun _ => S_OK,
    CreateThread := 7,
    IPin_QueryAccept := fun _ _ => S_OK,
    set_format := fun _ _ => S_OK,
    IFilterGraph_Reconnect := fun _ => S_OK,
    get_format := fun _ => (mt320x240x24, mt320x240x24.pbFormat),
    get_caps_count := fun _ => 2,
    get_caps := fun _ index =>
      if index = 0 then (mt640x480x16, mt640x480x16.pbFormat, { bytes := [0] })
      else (mt320x240x24, mt320x240x24.pbFormat, { bytes := [1] }),
    CoTaskMemAlloc := fun _ => true,
    IPropertyBag_Read := (S_OK, 0),
    create := fun _ => 9,
    GetDeliveryBuffer := fun k => (S_OK, 100 + k % 3),
    read_frame := fun _ => true,
    IMemInputPin_Receive := fun _ => S_OK }

/-- Collaborators as `cooperating`, except that the allocator's `Commit` answers `E_FAIL`. -/
def commitFails : Collaborators :=
  { cooperating with IMemAllocator_Commit := fun _ => E_FAIL }

/-- Collaborators as `cooperating`, except that the allocator's `SetProperties` answers
`E_FAIL`. -/
def setPropertiesFails : Collaborators :=
  { cooperating with IMemAllocator_SetProperties := fun _ req => (E_FAIL, req) }

/-- A filter that has been prepared and run: both state variables `State_Running`, the
acquisition thread's handle is 11. -/
def runningFilter : vfw_capture :=
  { stoppedFilter with
    filter := { state := State_Running, graph := 1 }, state := State_Running, thread := 11 }

/-- Collaborators as `cooperating`, except that the allocator's `Decommit` answers
`VFW_E_NOT_COMMITTED`: the pool is already idle. -/
def poolIdle : Collaborators :=
  { cooperating with IMemAllocator_Decommit := fun _ => VFW_E_NOT_COMMITTED }

/-- A media type whose major type is `MEDIATYPE_Audio`,
73647561-0000-0010-8000-00AA00389B71. -/
def mtAudio : AM_MEDIA_TYPE :=
  { mt640x480x16 with majortype := 0x7364756100000010800000AA00389B71 }

/-- Whether a call is the backend's `set_format`. -/
def Call.isSetFormat : Call → Bool
  | .set_format _ _ => true
  | _ => false

/-- Whether a call is the graph's `Reconnect`. -/
def Call.isReconnect : Call → Bool
  | .IFilterGraph_Reconnect _ => true
  | _ => false

/-- Collaborators as `cooperating`, except that the peer answers `S_FALSE` to
`QueryAccept`. -/
def peerRejects : Collaborators :=
  { cooperating with IPin_QueryAccept := fun _ _ => S_FALSE }

/-- Collaborators as `cooperating`, except that the peer's `QueryAccept` fails with
`E_FAIL`. -/
def probeFails : Collaborators :=
  { cooperating with IPin_QueryAccept := fun _ _ => E_FAIL }

/-- Collaborators as `cooperating`, except that the backend's `set_format` fails with
`E_FAIL`. -/
def deviceRefuses : Collaborators :=
  { cooperating with set_format := fun _ _ => E_FAIL }

/-- Collaborators as `cooperating`, except that the graph's `Reconnect` fails with
`E_FAIL`. -/
def reconnectFails : Collaborators :=
  { cooperating with IFilterGraph_Reconnect := fun _ => E_FAIL }

/-- The stopped filter with its pin connected but outside any graph. -/
def graphlessFilter : vfw_capture :=
  { stoppedFilter with filter := { state := State_Stopped, graph := 0 } }

/-- The stopped filter with no peer connected to its pin. -/
def unconnectedFilter : vfw_capture :=
  { stoppedFilter with
    source := { pin := { peer := 0, mt := mt640x480x16 }, pAllocator := 3, pMemInputPin := 4 } }

/-- Collaborators as `cooperating`, except that every memory allocation fails. -/
def outOfMemory : Collaborators :=
  { cooperating with CoTaskMemAlloc := fun _ => false }

/-- Collaborators as `cooperating`, except that the backend's `create` returns `NULL`. -/
def createFails : Collaborators :=
  { cooperating with create := fun _ => 0 }

/-- Collaborators as `cooperating`, except that the property-bag read fails with
`E_FAIL`. -/
def bagReadFails : Collaborators :=
  { cooperating with IPropertyBag_Read := (E_FAIL, 0) }

/-- Collaborators as `cooperating`, except that the backend's `read_frame` succeeds on its
first call only. -/
def secondReadFails : Collaborators :=
  { cooperating with read_frame := fun k => decide (k < 1) }

/-! ## Auxiliary facts -/

/-- Storing an unsigned 32-bit value in a `LONG` field keeps its bits. -/
theorem toDWORD_toLONG (n : Nat) (h : n < 2 ^ 32) : toDWORD (toLONG n) = n := by
  unfold toDWORD toLONG
  split <;> omega

/-- An `unsigned int` result is below `2 ^ 32`. -/
theorem toDWORD_lt (x : Int) : toDWORD x < 2 ^ 32 := by
  unfold toDWORD
  omega

/-- The image size is an `unsigned int`. -/
theorem get_image_size_lt (filter : vfw_capture) : get_image_size filter < 2 ^ 32 :=
  toDWORD_lt _

/-- Function `vfw_capture_init_stream` when `SetProperties` does not fail. -/
theorem init_stream_of_accepted (env : Collaborators) (filter : vfw_capture)
    (h : FAILED (env.IMemAllocator_SetProperties filter.source.pAllocator
      (init_stream_request filter)).1 = false) :
    vfw_capture_init_stream env filter =
      { hr := S_OK,
        filter := { filter with state := State_Paused, thread := env.CreateThread },
        calls := [Call.IMemAllocator_SetProperties filter.source.pAllocator
                    (init_stream_request filter),
                  Call.IMemAllocator_Commit filter.source.pAllocator,
                  Call.CreateThread] } := by
  unfold init_stream_request at h ⊢
  simp [vfw_capture_init_stream, h]

/-- Function `vfw_capture_init_stream` when `SetProperties` fails. -/
theorem init_stream_of_refused (env : Collaborators) (filter : vfw_capture)
    (h : FAILED (env.IMemAllocator_SetProperties filter.source.pAllocator
      (init_stream_request filter)).1 = true) :
    vfw_capture_init_stream env filter =
      { hr := (env.IMemAllocator_SetProperties filter.source.pAllocator
          (init_stream_request filter)).1,
        filter := filter,
        calls := [Call.IMemAllocator_SetProperties filter.source.pAllocator
                    (init_stream_request filter)] } := by
  unfold init_stream_request at h ⊢
  simp [vfw_capture_init_stream, h]

/-! ## Prepare: `vfw_capture_init_stream` -/

/-- C1. Prepare success: for every filter whose allocator does not fail the
`SetProperties` call, `vfw_capture_init_stream` makes exactly three collaborator calls, in
this order: `SetProperties` on the filter's allocator with the request
`cBuffers = 3, cbBuffer = get_image_size filter, cbAlign = 1, cbPrefix = 0` (the `LONG`
field `cbBuffer` holds the bits of the `unsigned` image size), `Commit` on the same
allocator, and `CreateThread`. Afterwards the state is `State_Paused`, the thread handle is
the one `CreateThread` returned, nothing else in the filter has changed, and the result is
`S_OK`. -/
theorem C1_init_stream_success (env : Collaborators) (filter : vfw_capture)
    (h : FAILED (env.IMemAllocator_SetProperties filter.source.pAllocator
      { cBuffers := 3, cbBuffer := toLONG (get_image_size filter), cbAlign := 1,
        cbPrefix := 0 }).1 = false) :
    (vfw_capture_init_stream env filter).calls =
        [Call.IMemAllocator_SetProperties filter.source.pAllocator
           { cBuffers := 3, cbBuffer := toLONG (get_image_size filter), cbAlign := 1,
             cbPrefix := 0 },
         Call.IMemAllocator_Commit filter.source.pAllocator,
         Call.CreateThread] ∧
      toDWORD (toLONG (get_image_size filter)) = get_image_size filter ∧
      (vfw_capture_init_stream env filter).filter.state = State_Paused ∧
      (vfw_capture_init_stream env filter).filter.thread = env.CreateThread ∧
      (vfw_capture_init_stream env filter).filter =
        { filter with state := State_Paused, thread := env.CreateThread } ∧
      (vfw_capture_init_stream env filter).hr = S_OK := by
  rw [init_stream_of_accepted env filter h]
  exact ⟨rfl, toDWORD_toLONG _ (get_image_size_lt filter), rfl, rfl, rfl, rfl⟩

/-- C1, witness: the 640 x 480 x 16 filter with cooperating collaborators. -/
theorem C1_init_stream_success_witness :
    (vfw_capture_init_stream cooperating stoppedFilter).calls =
        [Call.IMemAllocator_SetProperties 3
           { cBuffers := 3, cbBuffer := 614400, cbAlign := 1, cbPrefix := 0 },
         Call.IMemAllocator_Commit 3,
         Call.CreateThread] ∧
      (vfw_capture_init_stream cooperating stoppedFilter).filter.state = State_Paused ∧
      (vfw_capture_init_stream cooperating stoppedFilter).filter.thread = 7 ∧
      (vfw_capture_init_stream cooperating stoppedFilter).hr = S_OK := by
  have h := C1_init_stream_success cooperating stoppedFilter (by decide)
  refine ⟨?_, h.2.2.1, h.2.2.2.1, h.2.2.2.2.2⟩
  rw [h.1]
  decide

/-- C2. Prepare with failing pool negotiation: for every filter in `State_Stopped`, if the
allocator's `SetProperties` answers a failure code, `vfw_capture_init_stream` returns that
very code, the state is still `State_Stopped`, the thread handle and the whole filter are
unchanged, and the only collaborator call made is that `SetProperties`: no `Commit`, no
`CreateThread`. -/
theorem C2_init_stream_negotiation_failure (env : Collaborators) (filter : vfw_capture)
    (hs : filter.state = State_Stopped)
    (h : FAILED (env.IMemAllocator_SetProperties filter.source.pAllocator
      { cBuffers := 3, cbBuffer := toLONG (get_image_size filter), cbAlign := 1,
        cbPrefix := 0 }).1 = true) :
    (vfw_capture_init_stream env filter).hr =
        (env.IMemAllocator_SetProperties filter.source.pAllocator
          { cBuffers := 3, cbBuffer := toLONG (get_image_size filter), cbAlign := 1,
            cbPrefix := 0 }).1 ∧
      FAILED (vfw_capture_init_stream env filter).hr = true ∧
      (vfw_capture_init_stream env filter).filter.state = State_Stopped ∧
      (vfw_capture_init_stream env filter).filter.thread = filter.thread ∧
      (vfw_capture_init_stream env filter).filter = filter ∧
      (vfw_capture_init_stream env filter).calls =
        [Call.IMemAllocator_SetProperties filter.source.pAllocator
           { cBuffers := 3, cbBuffer := toLONG (get_image_size filter), cbAlign := 1,
             cbPrefix := 0 }] ∧
      (∀ c ∈ (vfw_capture_init_stream env filter).calls,
        c.isCommit = false ∧ c.isCreateThread = false) := by
  rw [init_stream_of_refused env filter h]
  refine ⟨rfl, h, hs, rfl, rfl, rfl, ?_⟩
  intro c hc
  simp only [List.mem_singleton] at hc
  subst hc
  exact ⟨rfl, rfl⟩

/-- C2, witness: the stopped 640 x 480 x 16 filter with an allocator that answers `E_FAIL`
to `SetProperties`. -/
theorem C2_init_stream_negotiation_failure_witness :
    stoppedFilter.state = State_Stopped ∧
      (vfw_capture_init_stream setPropertiesFails stoppedFilter).hr = E_FAIL ∧
      (vfw_capture_init_stream setPropertiesFails stoppedFilter).filter = stoppedFilter ∧
      (∀ c ∈ (vfw_capture_init_stream setPropertiesFails stoppedFilter).calls,
        c.isCommit = false ∧ c.isCreateThread = false) :=
  have h := C2_init_stream_negotiation_failure setPropertiesFails stoppedFilter rfl
    (by decide)
  ⟨rfl, h.1, h.2.2.2.2.1, h.2.2.2.2.2.2⟩

/-- C3, counterexample: on the stopped 640 x 480 x 16 filter, with an allocator whose
`SetProperties` answers `S_OK` and whose `Commit` answers `E_FAIL`,
`vfw_capture_init_stream` returns `S_OK` (not a failure code), leaves the state
`State_Paused` (not `State_Stopped`) and calls `CreateThread`, whose handle 7 replaces the
null thread handle. -/
theorem C3_commit_failure_counterexample :
    stoppedFilter.state = State_Stopped ∧
      FAILED (commitFails.IMemAllocator_SetProperties stoppedFilter.source.pAllocator
        { cBuffers := 3, cbBuffer := toLONG (get_image_size stoppedFilter), cbAlign := 1,
          cbPrefix := 0 }).1 = false ∧
      FAILED (commitFails.IMemAllocator_Commit stoppedFilter.source.pAllocator) = true ∧
      (vfw_capture_init_stream commitFails stoppedFilter).hr = S_OK ∧
      FAILED (vfw_capture_init_stream commitFails stoppedFilter).hr = false ∧
      (vfw_capture_init_stream commitFails stoppedFilter).filter.state = State_Paused ∧
      Call.CreateThread ∈ (vfw_capture_init_stream commitFails stoppedFilter).calls ∧
      stoppedFilter.thread = NULL ∧
      (vfw_capture_init_stream commitFails stoppedFilter).filter.thread = 7 := by
  decide

/-- C3, as amended. Prepare with failing pool commit: for every filter in `State_Stopped`,
if `SetProperties` does not fail but the allocator's `Commit` answers a failure code,
`vfw_capture_init_stream` still returns `S_OK`; it makes the calls `SetProperties`,
`Commit`, `CreateThread`, sets the state to `State_Paused` and stores the new thread's
handle. The status of `Commit` has no influence on the outcome. -/
theorem C3_init_stream_commit_failure_ignored (env : Collaborators) (filter : vfw_capture)
    (hs : filter.state = State_Stopped)
    (h : FAILED (env.IMemAllocator_SetProperties filter.source.pAllocator
      { cBuffers := 3, cbBuffer := toLONG (get_image_size filter), cbAlign := 1,
        cbPrefix := 0 }).1 = false)
    (hc : FAILED (env.IMemAllocator_Commit filter.source.pAllocator) = true) :
    (vfw_capture_init_stream env filter).hr = S_OK ∧
      FAILED (vfw_capture_init_stream env filter).hr = false ∧
      (vfw_capture_init_stream env filter).filter.state = State_Paused ∧
      (vfw_capture_init_stream env filter).filter.state ≠ filter.state ∧
      (vfw_capture_init_stream env filter).filter.thread = env.CreateThread ∧
      (vfw_capture_init_stream env filter).calls =
        [Call.IMemAllocator_SetProperties filter.source.pAllocator
           { cBuffers := 3, cbBuffer := toLONG (get_image_size filter), cbAlign := 1,
             cbPrefix := 0 },
         Call.IMemAllocator_Commit filter.source.pAllocator,
         Call.CreateThread] ∧
      (vfw_capture_init_stream env filter).hr ≠
        env.IMemAllocator_Commit filter.source.pAllocator := by
  rw [init_stream_of_accepted env filter h]
  refine ⟨rfl, rfl, rfl, ?_, rfl, rfl, ?_⟩
  · show State_Paused ≠ filter.state
    rw [hs]
    decide
  · show S_OK ≠ env.IMemAllocator_Commit filter.source.pAllocator
    intro he
    rw [← he] at hc
    exact absurd hc (by decide)

/-- C3, witness of the amended statement: the stopped 640 x 480 x 16 filter with an
allocator whose `Commit` answers `E_FAIL`. -/
theorem C3_init_stream_commit_failure_ignored_witness :
    FAILED (commitFails.IMemAllocator_Commit stoppedFilter.source.pAllocator) = true ∧
      (vfw_capture_init_stream commitFails stoppedFilter).hr = S_OK ∧
      (vfw_capture_init_stream commitFails stoppedFilter).filter.state = State_Paused ∧
      (vfw_capture_init_stream commitFails stoppedFilter).filter.thread = 7 :=
  have h := C3_init_stream_commit_failure_ignored commitFails stoppedFilter rfl
    (by decide) (by decide)
  ⟨by decide, h.1, h.2.2.1, h.2.2.2.2.1⟩

/-- C4, counterexample: on a filter that is `State_Running` with thread handle 11, with
cooperating collaborators, `vfw_capture_init_stream` is not rejected: it returns `S_OK`,
calls `CreateThread`, replaces the thread handle 11 by 7 and changes the state to
`State_Paused`. -/
theorem C4_second_prepare_counterexample :
    runningFilter.state = State_Running ∧
      runningFilter.thread = 11 ∧
      (vfw_capture_init_stream cooperating runningFilter).hr = S_OK ∧
      Call.CreateThread ∈ (vfw_capture_init_stream cooperating runningFilter).calls ∧
      (vfw_capture_init_stream cooperating runningFilter).filter.thread = 7 ∧
      (vfw_capture_init_stream cooperating runningFilter).filter.thread ≠
        runningFilter.thread ∧
      (vfw_capture_init_stream cooperating runningFilter).filter.state = State_Paused ∧
      (vfw_capture_init_stream cooperating runningFilter).filter.state ≠
        runningFilter.state := by
  decide

/-- C4, as amended. `vfw_capture_init_stream` does not look at the state: for every filter
whose state is `State_Paused` or `State_Running` it returns the same status and makes the
same calls as on that filter in `State_Stopped`. When `SetProperties` does not fail it
returns `S_OK`, calls `CreateThread`, overwrites the thread handle with the new one and
sets the state to `State_Paused`; when `SetProperties` fails it returns that failure
code, does not call `CreateThread` and leaves thread handle and state as they were, so
the state is still not `State_Stopped`. -/
theorem C4_init_stream_ignores_state (env : Collaborators) (filter : vfw_capture)
    (hs : filter.state = State_Paused ∨ filter.state = State_Running) :
    (vfw_capture_init_stream env filter).hr =
        (vfw_capture_init_stream env { filter with state := State_Stopped }).hr ∧
      (vfw_capture_init_stream env filter).calls =
        (vfw_capture_init_stream env { filter with state := State_Stopped }).calls ∧
      (FAILED (env.IMemAllocator_SetProperties filter.source.pAllocator
          { cBuffers := 3, cbBuffer := toLONG (get_image_size filter), cbAlign := 1,
            cbPrefix := 0 }).1 = false →
        (vfw_capture_init_stream env filter).hr = S_OK ∧
        Call.CreateThread ∈ (vfw_capture_init_stream env filter).calls ∧
        (vfw_capture_init_stream env filter).filter.thread = env.CreateThread ∧
        (vfw_capture_init_stream env filter).filter.state = State_Paused) ∧
      (FAILED (env.IMemAllocator_SetProperties filter.source.pAllocator
          { cBuffers := 3, cbBuffer := toLONG (get_image_size filter), cbAlign := 1,
            cbPrefix := 0 }).1 = true →
        FAILED (vfw_capture_init_stream env filter).hr = true ∧
        Call.CreateThread ∉ (vfw_capture_init_stream env filter).calls ∧
        (vfw_capture_init_stream env filter).filter.thread = filter.thread ∧
        (vfw_capture_init_stream env filter).filter.state = filter.state ∧
        (vfw_capture_init_stream env filter).filter.state ≠ State_Stopped) := by
  refine ⟨?_, ?_, ?_, ?_⟩
  · simp only [vfw_capture_init_stream, get_image_size]
    split <;> rfl
  · simp only [vfw_capture_init_stream, get_image_size]
    split <;> rfl
  · intro h
    rw [init_stream_of_accepted env filter h]
    exact ⟨rfl, by simp, rfl, rfl⟩
  · intro h
    rw [init_stream_of_refused env filter h]
    refine ⟨h, by simp, rfl, rfl, ?_⟩
    show filter.state ≠ State_Stopped
    rcases hs with hp | hp <;> rw [hp] <;> decide

/-- C4, witness of the amended statement: the running filter with cooperating
collaborators. -/
theorem C4_init_stream_ignores_state_witness :
    (runningFilter.state = State_Paused ∨ runningFilter.state = State_Running) ∧
      (vfw_capture_init_stream cooperating runningFilter).hr =
        (vfw_capture_init_stream cooperating
          { runningFilter with state := State_Stopped }).hr ∧
      (vfw_capture_init_stream cooperating runningFilter).filter.thread = 7 :=
  have h := C4_init_stream_ignores_state cooperating runningFilter (Or.inr rfl)
  ⟨Or.inr rfl, h.1, (h.2.2.1 (by decide)).2.2.1⟩

/-! ## Run, Pause, Cleanup and readiness -/

/-- C5. Run: for every filter and every time argument, `vfw_capture_start_stream` returns
`S_OK` and yields the filter with `state = State_Running` and every other field (the
framework part, `init`, the source with its allocator, the device, the thread handle)
unchanged; it makes no allocator call, so the allocator's commitment is untouched. The
outcome does not depend on the time argument, on a filter already `State_Running` the
filter is returned as it was, and running twice gives the same outcome as running once. -/
theorem C5_start_stream_run (filter : vfw_capture) (time : Int) :
    (vfw_capture_start_stream filter time).hr = S_OK ∧
      (vfw_capture_start_stream filter time).filter.state = State_Running ∧
      (vfw_capture_start_stream filter time).filter =
        { filter with state := State_Running } ∧
      (vfw_capture_start_stream filter time).filter.thread = filter.thread ∧
      (vfw_capture_start_stream filter time).filter.device = filter.device ∧
      (vfw_capture_start_stream filter time).filter.source = filter.source ∧
      (vfw_capture_start_stream filter time).filter.init = filter.init ∧
      (vfw_capture_start_stream filter time).filter.filter = filter.filter ∧
      (∀ c ∈ (vfw_capture_start_stream filter time).calls, c.isAllocatorCall = false) ∧
      (∀ time2 : Int,
        vfw_capture_start_stream filter time2 = vfw_capture_start_stream filter time) ∧
      (filter.state = State_Running →
        (vfw_capture_start_stream filter time).filter = filter) ∧
      (∀ time2 : Int,
        vfw_capture_start_stream (vfw_capture_start_stream filter time).filter time2 =
          vfw_capture_start_stream filter time) := by
  refine ⟨rfl, rfl, rfl, rfl, rfl, rfl, rfl, rfl, ?_, fun _ => rfl, ?_, fun _ => rfl⟩
  · intro c hc
    simp only [vfw_capture_start_stream, List.mem_singleton] at hc
    subst hc
    rfl
  · intro hs
    cases filter
    simp only [vfw_capture_start_stream] at hs ⊢
    rw [← hs]

/-- C6. Pause: for every filter, `vfw_capture_stop_stream` returns `S_OK` and sets the
state to `State_Paused`; it makes no collaborator call at all, in particular no
`SetProperties`, `Commit` or `Decommit`, and leaves the thread handle and every other
field unchanged. `vfw_capture_start_stream` has the same frame: only the state changes
(to `State_Running`) and no allocator call is made. -/
theorem C6_stop_stream_frame (filter : vfw_capture) (time : Int) :
    (vfw_capture_stop_stream filter).hr = S_OK ∧
      (vfw_capture_stop_stream filter).filter.state = State_Paused ∧
      (vfw_capture_stop_stream filter).filter = { filter with state := State_Paused } ∧
      (vfw_capture_stop_stream filter).filter.thread = filter.thread ∧
      (vfw_capture_stop_stream filter).calls = [] ∧
      (∀ c ∈ (vfw_capture_stop_stream filter).calls, c.isAllocatorCall = false) ∧
      (vfw_capture_start_stream filter time).filter =
        { filter with state := State_Running } ∧
      (vfw_capture_start_stream filter time).filter.thread = filter.thread ∧
      (∀ c ∈ (vfw_capture_start_stream filter time).calls, c.isAllocatorCall = false) := by
  refine ⟨rfl, rfl, rfl, rfl, rfl, ?_, rfl, rfl, ?_⟩
  · intro c hc
    simp [vfw_capture_stop_stream] at hc
  · intro c hc
    simp only [vfw_capture_start_stream, List.mem_singleton] at hc
    subst hc
    rfl

/-- C7. Cleanup: for every filter with a live (non-null) thread handle, whatever its state
(`State_Stopped`, `State_Paused` or `State_Running`) and whatever the allocator answers,
`vfw_capture_cleanup_stream` sets the state to `State_Stopped`, wakes the condition
variable, waits for the thread without timeout and closes its handle, sets the thread
handle to `NULL`, calls `Decommit` on the filter's allocator exactly once, and returns
`S_OK`; in particular it returns `S_OK` when `Decommit` answers `VFW_E_NOT_COMMITTED`. -/
theorem C7_cleanup_stream (env : Collaborators) (filter : vfw_capture)
    (hlive : filter.thread ≠ NULL) :
    (vfw_capture_cleanup_stream env filter).hr = S_OK ∧
      (vfw_capture_cleanup_stream env filter).filter.state = State_Stopped ∧
      (vfw_capture_cleanup_stream env filter).filter.thread = NULL ∧
      (vfw_capture_cleanup_stream env filter).filter.thread ≠ filter.thread ∧
      (vfw_capture_cleanup_stream env filter).filter =
        { filter with state := State_Stopped, thread := NULL } ∧
      (vfw_capture_cleanup_stream env filter).calls =
        [Call.WakeConditionVariable,
         Call.WaitForSingleObject filter.thread INFINITE,
         Call.CloseHandle filter.thread,
         Call.IMemAllocator_Decommit filter.source.pAllocator] ∧
      List.countP Call.isDecommit (vfw_capture_cleanup_stream env filter).calls = 1 ∧
      (vfw_capture_cleanup_stream
        { env with IMemAllocator_Decommit := fun _ => VFW_E_NOT_COMMITTED } filter).hr =
          S_OK := by
  refine ⟨rfl, rfl, rfl, ?_, rfl, rfl, rfl, rfl⟩
  show NULL ≠ filter.thread
  exact fun h => hlive h.symm

/-- C7, witness: the running filter (thread handle 11) with an allocator whose pool is
already idle. -/
theorem C7_cleanup_stream_witness :
    runningFilter.thread ≠ NULL ∧
      poolIdle.IMemAllocator_Decommit runningFilter.source.pAllocator =
        VFW_E_NOT_COMMITTED ∧
      (vfw_capture_cleanup_stream poolIdle runningFilter).hr = S_OK ∧
      (vfw_capture_cleanup_stream poolIdle runningFilter).filter.state = State_Stopped ∧
      (vfw_capture_cleanup_stream poolIdle runningFilter).filter.thread = NULL ∧
      List.countP Call.isDecommit (vfw_capture_cleanup_stream poolIdle runningFilter).calls
        = 1 :=
  have h := C7_cleanup_stream poolIdle runningFilter (by decide)
  ⟨by decide, rfl, h.1, h.2.1, h.2.2.1, h.2.2.2.2.2.2.1⟩

/-- C8. Query readiness: for every filter and every timeout, `vfw_capture_wait_state`
returns `VFW_S_CANT_CUE` exactly when the state it is handed (`iface->state`, the state
field of the embedded `strmbase_filter`) is `State_Paused`, and `S_OK` when that state is
`State_Stopped` or `State_Running`; the result is the same for every timeout, the filter is
unchanged and no collaborator is called. -/
theorem C8_wait_state (filter : vfw_capture) (timeout : Nat) :
    ((vfw_capture_wait_state filter timeout).hr = VFW_S_CANT_CUE ↔
        filter.filter.state = State_Paused) ∧
      (filter.filter.state = State_Stopped ∨ filter.filter.state = State_Running →
        (vfw_capture_wait_state filter timeout).hr = S_OK) ∧
      (∀ timeout2 : Nat,
        vfw_capture_wait_state filter timeout2 = vfw_capture_wait_state filter timeout) ∧
      (vfw_capture_wait_state filter timeout).filter = filter ∧
      (vfw_capture_wait_state filter timeout).calls = [] := by
  refine ⟨?_, ?_, fun _ => rfl, rfl, rfl⟩
  · simp only [vfw_capture_wait_state]
    constructor
    · intro h
      by_contra hn
      rw [if_neg hn] at h
      exact absurd h (by decide)
    · intro h
      rw [if_pos h]
  · intro h
    simp only [vfw_capture_wait_state]
    rcases h with h | h <;> rw [h] <;> rfl

/-! ## Set format: `AMStreamConfig_SetFormat` -/

/-- C9. Set-format outside Stopped: for every filter whose state as read by
`AMStreamConfig_SetFormat` (`This->filter.state`) is `State_Paused` or `State_Running`, and
every media-type argument, `NULL` included, the call returns `VFW_E_NOT_STOPPED` and makes
no collaborator call: the peer's `QueryAccept`, the backend's `set_format` and the graph's
`Reconnect` are not called, and the filter is unchanged. -/
theorem C9_SetFormat_not_stopped (env : Collaborators) (This : vfw_capture)
    (pmt : Option AM_MEDIA_TYPE)
    (hs : This.filter.state = State_Paused ∨ This.filter.state = State_Running) :
    (AMStreamConfig_SetFormat env This pmt).hr = VFW_E_NOT_STOPPED ∧
      (AMStreamConfig_SetFormat env This pmt).calls = [] ∧
      (∀ c ∈ (AMStreamConfig_SetFormat env This pmt).calls, c.isFormatCall = false) ∧
      (AMStreamConfig_SetFormat env This pmt).filter = This := by
  have hne : This.filter.state ≠ State_Stopped := by
    rcases hs with h | h <;> rw [h] <;> decide
  have hout : AMStreamConfig_SetFormat env This pmt =
      { hr := VFW_E_NOT_STOPPED, filter := This, calls := [] } := by
    simp [AMStreamConfig_SetFormat, hne]
  rw [hout]
  exact ⟨rfl, rfl, by simp, rfl⟩

/-- C9, witness: the running filter, once with a `NULL` media type and once with a video
media type. -/
theorem C9_SetFormat_not_stopped_witness :
    runningFilter.filter.state = State_Running ∧
      (AMStreamConfig_SetFormat cooperating runningFilter none).hr = VFW_E_NOT_STOPPED ∧
      (AMStreamConfig_SetFormat cooperating runningFilter none).calls = [] ∧
      (AMStreamConfig_SetFormat cooperating runningFilter (some mt640x480x16)).hr =
        VFW_E_NOT_STOPPED :=
  have h := C9_SetFormat_not_stopped cooperating runningFilter none (Or.inr rfl)
  ⟨rfl, h.1, h.2.1, by decide⟩

/-- C10. Set-format input validation: for every filter whose state as read by
`AMStreamConfig_SetFormat` is `State_Stopped`, the call returns `E_POINTER` when the media
type is `NULL`, and `E_FAIL` when its major type is not `MEDIATYPE_Video`; in both cases no
collaborator (peer, backend, graph) is called and the filter is unchanged. -/
theorem C10_SetFormat_validation (env : Collaborators) (This : vfw_capture)
    (hs : This.filter.state = State_Stopped) :
    ((AMStreamConfig_SetFormat env This none).hr = E_POINTER ∧
        (AMStreamConfig_SetFormat env This none).calls = [] ∧
        (AMStreamConfig_SetFormat env This none).filter = This) ∧
      (∀ mt : AM_MEDIA_TYPE, mt.majortype ≠ MEDIATYPE_Video →
        (AMStreamConfig_SetFormat env This (some mt)).hr = E_FAIL ∧
        (AMStreamConfig_SetFormat env This (some mt)).calls = [] ∧
        (AMStreamConfig_SetFormat env This (some mt)).filter = This) := by
  constructor
  · have hout : AMStreamConfig_SetFormat env This none =
        { hr := E_POINTER, filter := This, calls := [] } := by
      simp [AMStreamConfig_SetFormat, hs]
    rw [hout]
    exact ⟨rfl, rfl, rfl⟩
  · intro mt hmt
    have hout : AMStreamConfig_SetFormat env This (some mt) =
        { hr := E_FAIL, filter := This, calls := [] } := by
      simp [AMStreamConfig_SetFormat, hs, IsEqualGUID, hmt]
    rw [hout]
    exact ⟨rfl, rfl, rfl⟩

/-- C10, witness: the stopped filter with a `NULL` media type and with an audio media
type. -/
theorem C10_SetFormat_validation_witness :
    stoppedFilter.filter.state = State_Stopped ∧
      (AMStreamConfig_SetFormat cooperating stoppedFilter none).hr = E_POINTER ∧
      mtAudio.majortype ≠ MEDIATYPE_Video ∧
      (AMStreamConfig_SetFormat cooperating stoppedFilter (some mtAudio)).hr = E_FAIL ∧
      (AMStreamConfig_SetFormat cooperating stoppedFilter (some mtAudio)).calls = [] :=
  have h := C10_SetFormat_validation cooperating stoppedFilter rfl
  ⟨rfl, h.1.1, by decide, (h.2 mtAudio (by decide)).1, (h.2 mtAudio (by decide)).2.1⟩

/-- C11. Set-format peer rejection: for every filter that `AMStreamConfig_SetFormat` sees
as `State_Stopped`, with a connected peer, and every non-null media type of major type
`MEDIATYPE_Video`, if the peer's `QueryAccept` answers `S_FALSE` the call returns
`VFW_E_INVALIDMEDIATYPE`, a status different from `VFW_E_NOT_STOPPED`, `E_POINTER` and
`E_FAIL`; the only collaborator call is that `QueryAccept`, so neither the backend's
`set_format` nor the graph's `Reconnect` is called, and the filter is unchanged. -/
theorem C11_SetFormat_peer_rejection (env : Collaborators) (This : vfw_capture)
    (mt : AM_MEDIA_TYPE)
    (hs : This.filter.state = State_Stopped)
    (hpeer : This.source.pin.peer ≠ 0)
    (hv : mt.majortype = MEDIATYPE_Video)
    (hq : env.IPin_QueryAccept This.source.pin.peer mt = S_FALSE) :
    (AMStreamConfig_SetFormat env This (some mt)).hr = VFW_E_INVALIDMEDIATYPE ∧
      VFW_E_INVALIDMEDIATYPE ≠ VFW_E_NOT_STOPPED ∧
      VFW_E_INVALIDMEDIATYPE ≠ E_POINTER ∧
      VFW_E_INVALIDMEDIATYPE ≠ E_FAIL ∧
      (AMStreamConfig_SetFormat env This (some mt)).calls =
        [Call.IPin_QueryAccept This.source.pin.peer mt] ∧
      (∀ c ∈ (AMStreamConfig_SetFormat env This (some mt)).calls,
        c.isSetFormat = false ∧ c.isReconnect = false) ∧
      (AMStreamConfig_SetFormat env This (some mt)).filter = This := by
  have hout : AMStreamConfig_SetFormat env This (some mt) =
      { hr := VFW_E_INVALIDMEDIATYPE, filter := This,
        calls := [Call.IPin_QueryAccept This.source.pin.peer mt] } := by
    simp [AMStreamConfig_SetFormat, hs, hv, IsEqualGUID, hpeer, hq]
  rw [hout]
  refine ⟨rfl, by decide, by decide, by decide, rfl, ?_, rfl⟩
  intro c hc
  simp only [List.mem_singleton] at hc
  subst hc
  exact ⟨rfl, rfl⟩

/-- C11, witness: the stopped, connected filter with a peer that answers `S_FALSE`. -/
theorem C11_SetFormat_peer_rejection_witness :
    stoppedFilter.source.pin.peer ≠ 0 ∧
      peerRejects.IPin_QueryAccept stoppedFilter.source.pin.peer mt640x480x16 = S_FALSE ∧
      (AMStreamConfig_SetFormat peerRejects stoppedFilter (some mt640x480x16)).hr =
        VFW_E_INVALIDMEDIATYPE ∧
      (AMStreamConfig_SetFormat peerRejects stoppedFilter (some mt640x480x16)).calls =
        [Call.IPin_QueryAccept 2 mt640x480x16] :=
  have h := C11_SetFormat_peer_rejection peerRejects stoppedFilter mt640x480x16 rfl
    (by decide) rfl rfl
  ⟨by decide, rfl, h.1, h.2.2.2.2.1⟩

/-- A failure code is not a success code. -/
theorem FAILED_not_SUCCEEDED (hr : HRESULT) (h : FAILED hr = true) : SUCCEEDED hr = false := by
  simp only [FAILED, SUCCEEDED, decide_eq_true_eq, decide_eq_false_iff_not] at h ⊢
  exact not_le.mpr h

/-- Function `AMStreamConfig_SetFormat` on a stopped filter and a video media type that the
peer probe lets through (no peer, or an answer other than `S_FALSE`). -/
theorem SetFormat_past_probe (env : Collaborators) (This : vfw_capture) (mt : AM_MEDIA_TYPE)
    (hs : This.filter.state = State_Stopped)
    (hv : mt.majortype = MEDIATYPE_Video)
    (hp : This.source.pin.peer = 0 ∨
      env.IPin_QueryAccept This.source.pin.peer mt ≠ S_FALSE) :
    AMStreamConfig_SetFormat env This (some mt) =
      if SUCCEEDED (env.set_format This.device mt) = true ∧ This.filter.graph ≠ 0 ∧
          This.source.pin.peer ≠ 0 then
        { hr := env.IFilterGraph_Reconnect This.filter.graph, filter := This,
          calls := [Call.IPin_QueryAccept This.source.pin.peer mt,
                    Call.set_format This.device mt,
                    Call.IFilterGraph_Reconnect This.filter.graph] }
      else
        { hr := env.set_format This.device mt, filter := This,
          calls := (if This.source.pin.peer ≠ 0 then
              [Call.IPin_QueryAccept This.source.pin.peer mt] else []) ++
            [Call.set_format This.device mt] } := by
  rcases hp with hp | hp
  · simp [AMStreamConfig_SetFormat, hs, hv, IsEqualGUID, hp]
  · by_cases hpeer : This.source.pin.peer = 0
    · simp [AMStreamConfig_SetFormat, hs, hv, IsEqualGUID, hpeer]
    · simp [AMStreamConfig_SetFormat, hs, hv, IsEqualGUID, hp, hpeer]

/-- C12, counterexample: the stopped filter with a connected peer that answers `S_OK` to
`QueryAccept` and a backend whose `set_format` answers `S_OK`. When the graph's `Reconnect`
answers `E_FAIL`, `AMStreamConfig_SetFormat` returns that failure, so it does not succeed;
and when the filter is in no graph (`graph` is `NULL`) it succeeds without any
reconnection call. -/
theorem C12_reconnection_counterexample :
    (stoppedFilter.filter.state = State_Stopped ∧
      stoppedFilter.source.pin.peer ≠ 0 ∧
      reconnectFails.IPin_QueryAccept stoppedFilter.source.pin.peer mt640x480x16 = S_OK ∧
      SUCCEEDED (reconnectFails.set_format stoppedFilter.device mt640x480x16) = true ∧
      (AMStreamConfig_SetFormat reconnectFails stoppedFilter (some mt640x480x16)).hr =
        E_FAIL ∧
      SUCCEEDED (AMStreamConfig_SetFormat reconnectFails stoppedFilter
        (some mt640x480x16)).hr = false) ∧
    (graphlessFilter.filter.state = State_Stopped ∧
      graphlessFilter.source.pin.peer ≠ 0 ∧
      cooperating.IPin_QueryAccept graphlessFilter.source.pin.peer mt640x480x16 = S_OK ∧
      SUCCEEDED (cooperating.set_format graphlessFilter.device mt640x480x16) = true ∧
      (AMStreamConfig_SetFormat cooperating graphlessFilter (some mt640x480x16)).hr =
        S_OK ∧
      List.countP Call.isReconnect
        (AMStreamConfig_SetFormat cooperating graphlessFilter (some mt640x480x16)).calls =
          0) := by
  decide

/-- C12, as amended. Set-format reconnection: for every filter that
`AMStreamConfig_SetFormat` sees as `State_Stopped` and every non-null media type of major
type `MEDIATYPE_Video`:
with a connected peer whose `QueryAccept` answers `S_OK`, a backend whose `set_format`
succeeds and a filter that is in a graph, the calls are `QueryAccept`, `set_format`,
`Reconnect`, so exactly one reconnection is triggered, and the result is the result of
`Reconnect` (a success when `Reconnect` succeeds);
with such a peer and backend but no graph, no reconnection is triggered and the result is
the backend's;
with no peer connected, the only call is `set_format`, no reconnection is triggered and the
result is the backend's. -/
theorem C12_SetFormat_reconnection (env : Collaborators) (This : vfw_capture)
    (mt : AM_MEDIA_TYPE)
    (hs : This.filter.state = State_Stopped)
    (hv : mt.majortype = MEDIATYPE_Video) :
    (This.source.pin.peer ≠ 0 →
      env.IPin_QueryAccept This.source.pin.peer mt = S_OK →
      SUCCEEDED (env.set_format This.device mt) = true →
      This.filter.graph ≠ 0 →
        (AMStreamConfig_SetFormat env This (some mt)).calls =
          [Call.IPin_QueryAccept This.source.pin.peer mt,
           Call.set_format This.device mt,
           Call.IFilterGraph_Reconnect This.filter.graph] ∧
        List.countP Call.isReconnect (AMStreamConfig_SetFormat env This (some mt)).calls
          = 1 ∧
        (AMStreamConfig_SetFormat env This (some mt)).hr =
          env.IFilterGraph_Reconnect This.filter.graph ∧
        (SUCCEEDED (env.IFilterGraph_Reconnect This.filter.graph) = true →
          SUCCEEDED (AMStreamConfig_SetFormat env This (some mt)).hr = true)) ∧
    (This.source.pin.peer ≠ 0 →
      env.IPin_QueryAccept This.source.pin.peer mt = S_OK →
      SUCCEEDED (env.set_format This.device mt) = true →
      This.filter.graph = 0 →
        List.countP Call.isReconnect (AMStreamConfig_SetFormat env This (some mt)).calls
          = 0 ∧
        (AMStreamConfig_SetFormat env This (some mt)).hr =
          env.set_format This.device mt) ∧
    (This.source.pin.peer = 0 →
        (AMStreamConfig_SetFormat env This (some mt)).calls =
          [Call.set_format This.device mt] ∧
        List.countP Call.isReconnect (AMStreamConfig_SetFormat env This (some mt)).calls
          = 0 ∧
        (AMStreamConfig_SetFormat env This (some mt)).hr =
          env.set_format This.device mt) := by
  refine ⟨?_, ?_, ?_⟩
  · intro hpeer hq hsf hg
    have hp : This.source.pin.peer = 0 ∨
        env.IPin_QueryAccept This.source.pin.peer mt ≠ S_FALSE := by
      right
      rw [hq]
      decide
    rw [SetFormat_past_probe env This mt hs hv hp, if_pos ⟨hsf, hg, hpeer⟩]
    exact ⟨rfl, rfl, rfl, fun h => h⟩
  · intro hpeer hq _ hg
    have hp : This.source.pin.peer = 0 ∨
        env.IPin_QueryAccept This.source.pin.peer mt ≠ S_FALSE := by
      right
      rw [hq]
      decide
    rw [SetFormat_past_probe env This mt hs hv hp, if_neg (fun h => h.2.1 hg)]
    refine ⟨?_, rfl⟩
    simp [hpeer, List.countP_cons, Call.isReconnect]
  · intro hpeer
    rw [SetFormat_past_probe env This mt hs hv (Or.inl hpeer),
      if_neg (fun h => h.2.2 hpeer)]
    refine ⟨?_, ?_, rfl⟩
    · simp [hpeer]
    · simp [hpeer, List.countP_cons, Call.isReconnect]

/-- C12, witness of the amended statement: the stopped, connected filter in a graph, with
cooperating collaborators, triggers exactly one reconnection and succeeds. -/
theorem C12_SetFormat_reconnection_witness :
    stoppedFilter.filter.state = State_Stopped ∧
      mt640x480x16.majortype = MEDIATYPE_Video ∧
      List.countP Call.isReconnect
        (AMStreamConfig_SetFormat cooperating stoppedFilter (some mt640x480x16)).calls
          = 1 ∧
      (AMStreamConfig_SetFormat cooperating stoppedFilter (some mt640x480x16)).hr = S_OK :=
  have h := (C12_SetFormat_reconnection cooperating stoppedFilter mt640x480x16 rfl rfl).1
    (by decide) rfl (by decide) (by decide)
  ⟨rfl, rfl, h.2.1, h.2.2.1⟩

/-- C13. Set-format backend failure: for every filter that `AMStreamConfig_SetFormat` sees
as `State_Stopped` and every non-null media type of major type `MEDIATYPE_Video` that
passes the peer probe (no peer is connected, or `QueryAccept` answers something other than
`S_FALSE`), if the backend's `set_format` answers a failure code then the call returns
exactly that code; `set_format` is called and `Reconnect` is not. -/
theorem C13_SetFormat_backend_failure (env : Collaborators) (This : vfw_capture)
    (mt : AM_MEDIA_TYPE)
    (hs : This.filter.state = State_Stopped)
    (hv : mt.majortype = MEDIATYPE_Video)
    (hp : This.source.pin.peer = 0 ∨
      env.IPin_QueryAccept This.source.pin.peer mt ≠ S_FALSE)
    (hf : FAILED (env.set_format This.device mt) = true) :
    (AMStreamConfig_SetFormat env This (some mt)).hr = env.set_format This.device mt ∧
      FAILED (AMStreamConfig_SetFormat env This (some mt)).hr = true ∧
      Call.set_format This.device mt ∈ (AMStreamConfig_SetFormat env This (some mt)).calls ∧
      (∀ c ∈ (AMStreamConfig_SetFormat env This (some mt)).calls,
        c.isReconnect = false) := by
  have hns : ¬(SUCCEEDED (env.set_format This.device mt) = true ∧ This.filter.graph ≠ 0 ∧
      This.source.pin.peer ≠ 0) := by
    intro h
    rw [FAILED_not_SUCCEEDED _ hf] at h
    exact absurd h.1 (by decide)
  rw [SetFormat_past_probe env This mt hs hv hp, if_neg hns]
  refine ⟨rfl, hf, by simp, ?_⟩
  intro c hc
  simp only [List.mem_append, List.mem_singleton] at hc
  rcases hc with hc | hc
  · split at hc
    · simp only [List.mem_singleton] at hc
      subst hc
      rfl
    · simp at hc
  · subst hc
    rfl

/-- C13, witness: the stopped, connected filter with a backend that answers `E_FAIL`. -/
theorem C13_SetFormat_backend_failure_witness :
    FAILED (deviceRefuses.set_format stoppedFilter.device mt640x480x16) = true ∧
      (AMStreamConfig_SetFormat deviceRefuses stoppedFilter (some mt640x480x16)).hr =
        E_FAIL ∧
      (∀ c ∈ (AMStreamConfig_SetFormat deviceRefuses stoppedFilter
        (some mt640x480x16)).calls, c.isReconnect = false) :=
  have h := C13_SetFormat_backend_failure deviceRefuses stoppedFilter mt640x480x16 rfl rfl
    (Or.inr (by decide)) (by decide)
  ⟨by decide, h.1, h.2.2.2⟩

/-- C14, counterexample: on the stopped, connected filter, with a peer whose `QueryAccept`
fails with `E_FAIL` and otherwise cooperating collaborators, `AMStreamConfig_SetFormat`
does not return `E_FAIL`: it calls the backend's `set_format` and returns `S_OK`. -/
theorem C14_probe_failure_counterexample :
    stoppedFilter.filter.state = State_Stopped ∧
      stoppedFilter.source.pin.peer ≠ 0 ∧
      mt640x480x16.majortype = MEDIATYPE_Video ∧
      probeFails.IPin_QueryAccept stoppedFilter.source.pin.peer mt640x480x16 = E_FAIL ∧
      FAILED (probeFails.IPin_QueryAccept stoppedFilter.source.pin.peer mt640x480x16)
        = true ∧
      (AMStreamConfig_SetFormat probeFails stoppedFilter (some mt640x480x16)).hr = S_OK ∧
      (AMStreamConfig_SetFormat probeFails stoppedFilter (some mt640x480x16)).hr ≠
        E_FAIL ∧
      Call.set_format stoppedFilter.device mt640x480x16 ∈
        (AMStreamConfig_SetFormat probeFails stoppedFilter (some mt640x480x16)).calls := by
  decide

/-- C14, as amended. Set-format peer-probe failure: for every filter that
`AMStreamConfig_SetFormat` sees as `State_Stopped`, with a connected peer, and every
non-null media type of major type `MEDIATYPE_Video`, if the peer's `QueryAccept` answers a
failure code, that code is dropped: the backend's `set_format` is called all the same, and
the result is the backend's answer, or the answer of `Reconnect` when the backend succeeds
and the filter is in a graph. The result is the one obtained from a peer that answers
`S_OK`. -/
theorem C14_SetFormat_probe_failure_dropped (env : Collaborators) (This : vfw_capture)
    (mt : AM_MEDIA_TYPE)
    (hs : This.filter.state = State_Stopped)
    (hpeer : This.source.pin.peer ≠ 0)
    (hv : mt.majortype = MEDIATYPE_Video)
    (hq : FAILED (env.IPin_QueryAccept This.source.pin.peer mt) = true) :
    Call.set_format This.device mt ∈ (AMStreamConfig_SetFormat env This (some mt)).calls ∧
      (AMStreamConfig_SetFormat env This (some mt)).hr =
        (if SUCCEEDED (env.set_format This.device mt) = true ∧ This.filter.graph ≠ 0 then
          env.IFilterGraph_Reconnect This.filter.graph
        else env.set_format This.device mt) ∧
      AMStreamConfig_SetFormat env This (some mt) =
        AMStreamConfig_SetFormat { env with IPin_QueryAccept := fun _ _ => S_OK } This
          (some mt) := by
  have hp : This.source.pin.peer = 0 ∨
      env.IPin_QueryAccept This.source.pin.peer mt ≠ S_FALSE := by
    right
    intro he
    rw [he] at hq
    exact absurd hq (by decide)
  have hp2 : This.source.pin.peer = 0 ∨
      ({ env with IPin_QueryAccept := fun _ _ => S_OK } : Collaborators).IPin_QueryAccept
        This.source.pin.peer mt ≠ S_FALSE := by
    right
    show S_OK ≠ S_FALSE
    decide
  rw [SetFormat_past_probe env This mt hs hv hp, SetFormat_past_probe _ This mt hs hv hp2]
  refine ⟨?_, ?_, rfl⟩
  · split <;> simp
  · by_cases hc : SUCCEEDED (env.set_format This.device mt) = true ∧ This.filter.graph ≠ 0
    · rw [if_pos hc, if_pos ⟨hc.1, hc.2, hpeer⟩]
    · rw [if_neg hc, if_neg (fun h => hc ⟨h.1, h.2.1⟩)]

/-- C14, witness of the amended statement: the stopped, connected filter with a peer whose
`QueryAccept` fails with `E_FAIL`. -/
theorem C14_SetFormat_probe_failure_dropped_witness :
    FAILED (probeFails.IPin_QueryAccept stoppedFilter.source.pin.peer mt640x480x16)
        = true ∧
      Call.set_format stoppedFilter.device mt640x480x16 ∈
        (AMStreamConfig_SetFormat probeFails stoppedFilter (some mt640x480x16)).calls :=
  have h := C14_SetFormat_probe_failure_dropped probeFails stoppedFilter mt640x480x16 rfl
    (by decide) rfl (by decide)
  ⟨by decide, h.1⟩

/-- C15, counterexample: on the stopped, connected filter in a graph, with a backend whose
`set_format` answers `S_OK` and a graph whose `Reconnect` answers `E_FAIL`,
`AMStreamConfig_SetFormat` returns a failure code although `set_format` was called and
succeeded. -/
theorem C15_atomicity_counterexample :
    FAILED (AMStreamConfig_SetFormat reconnectFails stoppedFilter (some mt640x480x16)).hr
        = true ∧
      Call.set_format stoppedFilter.device mt640x480x16 ∈
        (AMStreamConfig_SetFormat reconnectFails stoppedFilter (some mt640x480x16)).calls ∧
      FAILED (reconnectFails.set_format stoppedFilter.device mt640x480x16) = false ∧
      SUCCEEDED (reconnectFails.set_format stoppedFilter.device mt640x480x16) = true := by
  decide

/-- C15, as amended. For every filter and argument, whenever `AMStreamConfig_SetFormat`
returns a failure code, one of three things happened: the backend's `set_format` was not
called; or it was called and itself failed; or it was called and succeeded, `Reconnect`
was then called and failed, and its failure code is the result. When the filter is in no
graph or has no peer, only the first two are possible. -/
theorem C15_SetFormat_failure_cases (env : Collaborators) (This : vfw_capture)
    (pmt : Option AM_MEDIA_TYPE)
    (h : FAILED (AMStreamConfig_SetFormat env This pmt).hr = true) :
    ((∀ c ∈ (AMStreamConfig_SetFormat env This pmt).calls, c.isSetFormat = false) ∨
      (∃ mt, pmt = some mt ∧ FAILED (env.set_format This.device mt) = true) ∨
      (∃ mt, pmt = some mt ∧ SUCCEEDED (env.set_format This.device mt) = true ∧
        Call.IFilterGraph_Reconnect This.filter.graph ∈
          (AMStreamConfig_SetFormat env This pmt).calls ∧
        (AMStreamConfig_SetFormat env This pmt).hr =
          env.IFilterGraph_Reconnect This.filter.graph ∧
        FAILED (env.IFilterGraph_Reconnect This.filter.graph) = true ∧
        This.filter.graph ≠ 0 ∧ This.source.pin.peer ≠ 0)) ∧
    (This.filter.graph = 0 ∨ This.source.pin.peer = 0 →
      (∀ c ∈ (AMStreamConfig_SetFormat env This pmt).calls, c.isSetFormat = false) ∨
      (∃ mt, pmt = some mt ∧ FAILED (env.set_format This.device mt) = true)) := by
  have key : (∀ c ∈ (AMStreamConfig_SetFormat env This pmt).calls, c.isSetFormat = false) ∨
      (∃ mt, pmt = some mt ∧ FAILED (env.set_format This.device mt) = true) ∨
      (∃ mt, pmt = some mt ∧ SUCCEEDED (env.set_format This.device mt) = true ∧
        Call.IFilterGraph_Reconnect This.filter.graph ∈
          (AMStreamConfig_SetFormat env This pmt).calls ∧
        (AMStreamConfig_SetFormat env This pmt).hr =
          env.IFilterGraph_Reconnect This.filter.graph ∧
        FAILED (env.IFilterGraph_Reconnect This.filter.graph) = true ∧
        This.filter.graph ≠ 0 ∧ This.source.pin.peer ≠ 0) := by
    by_cases hs : This.filter.state = State_Stopped
    · cases pmt with
      | none =>
        left
        simp [AMStreamConfig_SetFormat, hs]
      | some mt =>
        by_cases hv : mt.majortype = MEDIATYPE_Video
        · by_cases hp : This.source.pin.peer = 0 ∨
              env.IPin_QueryAccept This.source.pin.peer mt ≠ S_FALSE
          · rw [SetFormat_past_probe env This mt hs hv hp] at h ⊢
            split at h
            · rename_i hc
              right
              right
              rw [if_pos hc]
              exact ⟨mt, rfl, hc.1, by simp, rfl, h, hc.2.1, hc.2.2⟩
            · right
              left
              exact ⟨mt, rfl, h⟩
          · left
            have hp1 : This.source.pin.peer ≠ 0 := fun h0 => hp (Or.inl h0)
            have hp2 : env.IPin_QueryAccept This.source.pin.peer mt = S_FALSE := by
              by_contra hne
              exact hp (Or.inr hne)
            intro c hc
            simp [AMStreamConfig_SetFormat, hs, hv, IsEqualGUID, hp1, hp2] at hc
            subst hc
            rfl
        · left
          simp [AMStreamConfig_SetFormat, hs, hv, IsEqualGUID]
    · left
      simp [AMStreamConfig_SetFormat, hs]
  refine ⟨key, ?_⟩
  intro hgp
  rcases key with k | k | ⟨_, _, _, _, _, _, hg, hpeer⟩
  · exact Or.inl k
  · exact Or.inr k
  · rcases hgp with h0 | h0
    · exact absurd h0 hg
    · exact absurd h0 hpeer

/-- C15, witness of the amended statement: the stopped, connected filter with a graph
whose `Reconnect` fails after the backend accepted the format. -/
theorem C15_SetFormat_failure_cases_witness :
    FAILED (AMStreamConfig_SetFormat reconnectFails stoppedFilter (some mt640x480x16)).hr
        = true ∧
      ((∀ c ∈ (AMStreamConfig_SetFormat reconnectFails stoppedFilter
          (some mt640x480x16)).calls, c.isSetFormat = false) ∨
        (∃ mt, some mt640x480x16 = some mt ∧
          FAILED (reconnectFails.set_format stoppedFilter.device mt) = true) ∨
        (∃ mt, some mt640x480x16 = some mt ∧
          SUCCEEDED (reconnectFails.set_format stoppedFilter.device mt) = true ∧
          Call.IFilterGraph_Reconnect stoppedFilter.filter.graph ∈
            (AMStreamConfig_SetFormat reconnectFails stoppedFilter
              (some mt640x480x16)).calls ∧
          (AMStreamConfig_SetFormat reconnectFails stoppedFilter (some mt640x480x16)).hr =
            reconnectFails.IFilterGraph_Reconnect stoppedFilter.filter.graph ∧
          FAILED (reconnectFails.IFilterGraph_Reconnect stoppedFilter.filter.graph)
            = true ∧
          stoppedFilter.filter.graph ≠ 0 ∧ stoppedFilter.source.pin.peer ≠ 0)) :=
  ⟨by decide,
    (C15_SetFormat_failure_cases reconnectFails stoppedFilter (some mt640x480x16)
      (by decide)).1⟩

/-! ## Get format and capability enumeration -/

/-- C16. Get current format: for every filter, when the allocations succeed,
`AMStreamConfig_GetFormat` returns `S_OK` and, when a peer is connected, hands back a copy
of the output pin's media type `source.pin.mt` without calling the backend; when no peer is
connected it calls the backend's `get_format` once and hands back the media type the
backend wrote, with `pbFormat` the format block the backend filled and
`cbFormat = sizeof(VIDEOINFOHEADER)`. Whatever the collaborators answer, the filter is
left unchanged. -/
theorem C16_GetFormat (env : Collaborators) (filter : vfw_capture)
    (halloc : ∀ k, env.CoTaskMemAlloc k = true) :
    (filter.source.pin.peer ≠ 0 →
      (AMStreamConfig_GetFormat env filter).hr = S_OK ∧
      (AMStreamConfig_GetFormat env filter).mt = some filter.source.pin.mt ∧
      (AMStreamConfig_GetFormat env filter).calls = []) ∧
    (filter.source.pin.peer = 0 →
      (AMStreamConfig_GetFormat env filter).hr = S_OK ∧
      (AMStreamConfig_GetFormat env filter).calls = [Call.get_format filter.device] ∧
      (AMStreamConfig_GetFormat env filter).mt =
        some { (env.get_format filter.device).1 with
          cbFormat := sizeof_VIDEOINFOHEADER, pbFormat := (env.get_format filter.device).2 } ∧
      (∀ m, (AMStreamConfig_GetFormat env filter).mt = some m →
        m.cbFormat = sizeof_VIDEOINFOHEADER ∧
        m.pbFormat = (env.get_format filter.device).2)) ∧
    (∀ e : Collaborators, (AMStreamConfig_GetFormat e filter).filter = filter) := by
  refine ⟨?_, ?_, ?_⟩
  · intro hpeer
    have hout : AMStreamConfig_GetFormat env filter =
        { hr := S_OK, filter := filter, calls := [], mt := some filter.source.pin.mt } := by
      simp [AMStreamConfig_GetFormat, CopyMediaType, halloc, hpeer, SUCCEEDED, S_OK]
    rw [hout]
    exact ⟨rfl, rfl, rfl⟩
  · intro hpeer
    have hout : AMStreamConfig_GetFormat env filter =
        { hr := S_OK, filter := filter, calls := [Call.get_format filter.device],
          mt := some { (env.get_format filter.device).1 with
            cbFormat := sizeof_VIDEOINFOHEADER,
            pbFormat := (env.get_format filter.device).2 } } := by
      simp [AMStreamConfig_GetFormat, halloc, hpeer]
    rw [hout]
    refine ⟨rfl, rfl, rfl, ?_⟩
    intro m hm
    simp only [Option.some.injEq] at hm
    subst hm
    exact ⟨rfl, rfl⟩
  · intro e
    unfold AMStreamConfig_GetFormat
    split
    · rfl
    · split
      · simp only
        split <;> rfl
      · split <;> rfl

/-- C16, witness: with cooperating collaborators the connected filter hands back its pin's
640 x 480 x 16 media type, and the unconnected one the backend's 320 x 240 x 24 format. -/
theorem C16_GetFormat_witness :
    (∀ k, cooperating.CoTaskMemAlloc k = true) ∧
      (AMStreamConfig_GetFormat cooperating stoppedFilter).mt = some mt640x480x16 ∧
      (AMStreamConfig_GetFormat cooperating unconnectedFilter).hr = S_OK ∧
      (AMStreamConfig_GetFormat cooperating unconnectedFilter).mt = some mt320x240x24 :=
  ⟨fun _ => rfl,
    ((C16_GetFormat cooperating stoppedFilter (fun _ => rfl)).1 (by decide)).2.1,
    ((C16_GetFormat cooperating unconnectedFilter (fun _ => rfl)).2.1 rfl).1,
    by decide⟩

/-- C17, counterexample: the backend's catalogue has two entries, so index 0 is in range,
but when the memory allocations fail `AMStreamConfig_GetStreamCaps` at index 0 returns
`E_OUTOFMEMORY`, not `S_OK`, hands back no media type and does not call `get_caps`. -/
theorem C17_enumeration_counterexample :
    outOfMemory.get_caps_count stoppedFilter.device = 2 ∧
      (AMStreamConfig_GetStreamCaps outOfMemory stoppedFilter 0).hr = E_OUTOFMEMORY ∧
      (AMStreamConfig_GetStreamCaps outOfMemory stoppedFilter 0).hr ≠ S_OK ∧
      (AMStreamConfig_GetStreamCaps outOfMemory stoppedFilter 0).pmt = none ∧
      Call.get_caps stoppedFilter.device 0 ∉
        (AMStreamConfig_GetStreamCaps outOfMemory stoppedFilter 0).calls := by
  decide

/-- C17, as amended. Capability enumeration: `AMStreamConfig_GetNumberOfCapabilities`
returns `E_POINTER`, storing nothing, when either out-pointer is `NULL`, and otherwise
`S_OK` with `count` the backend's `get_caps_count` and `size`
`sizeof(VIDEO_STREAM_CONFIG_CAPS)`. When the allocations succeed, for every index `i` with
`0 <= i < count`, `AMStreamConfig_GetStreamCaps` returns `S_OK`, calls `get_caps` with
that index, and hands back exactly the media type, the format block and the capability
record that `get_caps` wrote for `i`, with `cbFormat = sizeof(VIDEOINFOHEADER)`. -/
theorem C17_capability_enumeration (env : Collaborators) (filter : vfw_capture)
    (halloc : ∀ k, env.CoTaskMemAlloc k = true) :
    ((AMStreamConfig_GetNumberOfCapabilities env filter true true).hr = S_OK ∧
      (AMStreamConfig_GetNumberOfCapabilities env filter true true).count =
        some (env.get_caps_count filter.device) ∧
      (AMStreamConfig_GetNumberOfCapabilities env filter true true).size =
        some sizeof_VIDEO_STREAM_CONFIG_CAPS) ∧
    (∀ count size : Bool, count = false ∨ size = false →
      (AMStreamConfig_GetNumberOfCapabilities env filter count size).hr = E_POINTER ∧
      (AMStreamConfig_GetNumberOfCapabilities env filter count size).count = none ∧
      (AMStreamConfig_GetNumberOfCapabilities env filter count size).size = none) ∧
    (∀ i : Int, 0 ≤ i → i < env.get_caps_count filter.device →
      (AMStreamConfig_GetStreamCaps env filter i).hr = S_OK ∧
      Call.get_caps filter.device i ∈ (AMStreamConfig_GetStreamCaps env filter i).calls ∧
      (AMStreamConfig_GetStreamCaps env filter i).pmt =
        some { (env.get_caps filter.device i).1 with
          cbFormat := sizeof_VIDEOINFOHEADER,
          pbFormat := (env.get_caps filter.device i).2.1 } ∧
      (AMStreamConfig_GetStreamCaps env filter i).vscc =
        some (env.get_caps filter.device i).2.2 ∧
      (∀ m, (AMStreamConfig_GetStreamCaps env filter i).pmt = some m →
        m.cbFormat = sizeof_VIDEOINFOHEADER)) := by
  refine ⟨⟨rfl, rfl, rfl⟩, ?_, ?_⟩
  · intro count size h
    rcases h with h | h <;> subst h <;> simp [AMStreamConfig_GetNumberOfCapabilities]
  · intro i _ hi
    have hle : ¬ i > env.get_caps_count filter.device := not_lt.mpr (le_of_lt hi)
    have hout : AMStreamConfig_GetStreamCaps env filter i =
        { hr := S_OK, filter := filter,
          calls := [Call.get_caps_count filter.device, Call.get_caps filter.device i],
          pmt := some { (env.get_caps filter.device i).1 with
            cbFormat := sizeof_VIDEOINFOHEADER,
            pbFormat := (env.get_caps filter.device i).2.1 },
          vscc := some (env.get_caps filter.device i).2.2 } := by
      simp [AMStreamConfig_GetStreamCaps, hle, halloc]
    rw [hout]
    refine ⟨rfl, by simp, rfl, rfl, ?_⟩
    intro m hm
    simp only [Option.some.injEq] at hm
    subst hm
    rfl

/-- C17, witness of the amended statement: with cooperating collaborators the count is 2
and index 0 yields the catalogue's 640 x 480 x 16 entry. -/
theorem C17_capability_enumeration_witness :
    (∀ k, cooperating.CoTaskMemAlloc k = true) ∧
      (AMStreamConfig_GetNumberOfCapabilities cooperating stoppedFilter true true).count =
        some 2 ∧
      (AMStreamConfig_GetStreamCaps cooperating stoppedFilter 0).hr = S_OK ∧
      (AMStreamConfig_GetStreamCaps cooperating stoppedFilter 0).pmt = some mt640x480x16 :=
  ⟨fun _ => rfl,
    (C17_capability_enumeration cooperating stoppedFilter (fun _ => rfl)).1.2.1,
    ((C17_capability_enumeration cooperating stoppedFilter (fun _ => rfl)).2.2 0
      (by decide) (by decide)).1,
    by decide⟩

/-- C18, the code at the failing input: with a backend whose catalogue has 2 entries and
allocations that succeed, `AMStreamConfig_GetStreamCaps` at index 2 passes the test
`index > count`, calls the backend's `get_caps` with index 2, stores a media type through
`pmt` and returns `S_OK`, not `S_FALSE`; only from index 3 on is `S_FALSE` returned without
a `get_caps` call. -/
theorem C18_GetStreamCaps_at_count :
    cooperating.get_caps_count stoppedFilter.device = 2 ∧
      (AMStreamConfig_GetStreamCaps cooperating stoppedFilter 2).hr = S_OK ∧
      (AMStreamConfig_GetStreamCaps cooperating stoppedFilter 2).hr ≠ S_FALSE ∧
      Call.get_caps stoppedFilter.device 2 ∈
        (AMStreamConfig_GetStreamCaps cooperating stoppedFilter 2).calls ∧
      (AMStreamConfig_GetStreamCaps cooperating stoppedFilter 2).pmt ≠ none ∧
      (AMStreamConfig_GetStreamCaps cooperating stoppedFilter 3).hr = S_FALSE ∧
      (AMStreamConfig_GetStreamCaps cooperating stoppedFilter 3).pmt = none ∧
      (∀ c ∈ (AMStreamConfig_GetStreamCaps cooperating stoppedFilter 3).calls,
        c.isGetCaps = false) := by
  decide

/-! ## Buffer pool request and image size -/

/-- C19. Buffer-pool request defaults: for every request, `VfwPin_DecideBufferSize`
replaces a zero `cBuffers` by 3, a zero `cbBuffer` by 230400 and a zero `cbAlign` by 1,
leaves every non-zero field and `cbPrefix` as they are, makes exactly one call,
`SetProperties` on the allocator it was handed with the rewritten request, and returns
that call's status. Running it again on the rewritten request changes nothing. -/
theorem C19_DecideBufferSize_defaults (env : Collaborators) (pAlloc : Nat)
    (req : ALLOCATOR_PROPERTIES) :
    (VfwPin_DecideBufferSize env pAlloc req).request.cBuffers =
        (if req.cBuffers = 0 then 3 else req.cBuffers) ∧
      (VfwPin_DecideBufferSize env pAlloc req).request.cbBuffer =
        (if req.cbBuffer = 0 then 230400 else req.cbBuffer) ∧
      (VfwPin_DecideBufferSize env pAlloc req).request.cbAlign =
        (if req.cbAlign = 0 then 1 else req.cbAlign) ∧
      (VfwPin_DecideBufferSize env pAlloc req).request.cbPrefix = req.cbPrefix ∧
      (VfwPin_DecideBufferSize env pAlloc req).calls =
        [Call.IMemAllocator_SetProperties pAlloc
          (VfwPin_DecideBufferSize env pAlloc req).request] ∧
      (VfwPin_DecideBufferSize env pAlloc req).hr =
        (env.IMemAllocator_SetProperties pAlloc
          (VfwPin_DecideBufferSize env pAlloc req).request).1 ∧
      (VfwPin_DecideBufferSize env pAlloc
          (VfwPin_DecideBufferSize env pAlloc req).request).request =
        (VfwPin_DecideBufferSize env pAlloc req).request := by
  obtain ⟨n, b, a, x⟩ := req
  simp only [VfwPin_DecideBufferSize]
  by_cases hn : n = 0 <;> by_cases hb : b = 0 <;> by_cases ha : a = 0 <;>
    simp [hn, hb, ha]

/-- Wrapping to 32 bits keeps the value modulo `2 ^ 32`. -/
theorem wrapLONG_modEq (x : Int) : wrapLONG x ≡ x [ZMOD 2 ^ 32] := by
  unfold wrapLONG Int.ModEq
  omega

/-- Wrapping to 32 bits yields the one value of the `int` range in the residue class. -/
theorem wrapLONG_eq_of_modEq (x y : Int) (h : x ≡ y [ZMOD 2 ^ 32])
    (h1 : -2 ^ 31 ≤ y) (h2 : y < 2 ^ 31) : wrapLONG x = y := by
  unfold Int.ModEq at h
  unfold wrapLONG
  omega

/-- The image size is the exact quotient when the product fits an `int`. -/
theorem get_image_size_exact (filter : vfw_capture)
    (hw : 0 ≤ filter.source.pin.mt.pbFormat.bmiHeader.biWidth)
    (hh : 0 ≤ filter.source.pin.mt.pbFormat.bmiHeader.biHeight)
    (hb : filter.source.pin.mt.pbFormat.bmiHeader.biBitCount < 2 ^ 16)
    (hfit : filter.source.pin.mt.pbFormat.bmiHeader.biWidth *
      filter.source.pin.mt.pbFormat.bmiHeader.biHeight *
      (filter.source.pin.mt.pbFormat.bmiHeader.biBitCount : Int) < 2 ^ 31) :
    (get_image_size filter : Int) =
      filter.source.pin.mt.pbFormat.bmiHeader.biWidth *
        filter.source.pin.mt.pbFormat.bmiHeader.biHeight *
        (filter.source.pin.mt.pbFormat.bmiHeader.biBitCount : Int) / 8 := by
  unfold get_image_size
  simp only
  generalize filter.source.pin.mt.pbFormat.bmiHeader.biWidth = W at *
  generalize filter.source.pin.mt.pbFormat.bmiHeader.biHeight = H at *
  generalize filter.source.pin.mt.pbFormat.bmiHeader.biBitCount = B at *
  have hB : B % 2 ^ 16 = B := Nat.mod_eq_of_lt hb
  rw [hB]
  have hnn : 0 ≤ W * H * (B : Int) := by positivity
  have hmod : wrapLONG (wrapLONG W * wrapLONG H) * (B : Int) ≡ W * H * (B : Int)
      [ZMOD 2 ^ 32] :=
    Int.ModEq.mul
      ((wrapLONG_modEq _).trans (Int.ModEq.mul (wrapLONG_modEq W) (wrapLONG_modEq H)))
      (Int.ModEq.refl _)
  rw [wrapLONG_eq_of_modEq _ _ hmod (by omega) hfit, Int.tdiv_eq_ediv hnn (by decide)]
  unfold toDWORD
  omega

/-- C20. Derived buffer size: for every filter whose negotiated format has a non-negative
width and height, a bit count that is a `WORD`, and a product `width * height * bpp` that
fits a signed 32-bit integer, `get_image_size` returns `floor(width * height * bpp / 8)`.
When the format is 640 x 480 at 16 bits per pixel this is 614400, and
`vfw_capture_init_stream` asks the allocator for `cBuffers = 3` buffers of
`cbBuffer = 614400` bytes (`cbAlign = 1`, `cbPrefix = 0`) as its first call. -/
theorem C20_get_image_size (filter : vfw_capture)
    (hw : 0 ≤ filter.source.pin.mt.pbFormat.bmiHeader.biWidth)
    (hh : 0 ≤ filter.source.pin.mt.pbFormat.bmiHeader.biHeight)
    (hb : filter.source.pin.mt.pbFormat.bmiHeader.biBitCount < 2 ^ 16)
    (hfit : filter.source.pin.mt.pbFormat.bmiHeader.biWidth *
      filter.source.pin.mt.pbFormat.bmiHeader.biHeight *
      (filter.source.pin.mt.pbFormat.bmiHeader.biBitCount : Int) < 2 ^ 31) :
    (get_image_size filter : Int) =
        filter.source.pin.mt.pbFormat.bmiHeader.biWidth *
          filter.source.pin.mt.pbFormat.bmiHeader.biHeight *
          (filter.source.pin.mt.pbFormat.bmiHeader.biBitCount : Int) / 8 ∧
      (filter.source.pin.mt.pbFormat.bmiHeader.biWidth = 640 →
        filter.source.pin.mt.pbFormat.bmiHeader.biHeight = 480 →
        filter.source.pin.mt.pbFormat.bmiHeader.biBitCount = 16 →
          get_image_size filter = 614400 ∧
          ∀ env : Collaborators,
            (vfw_capture_init_stream env filter).calls.head? =
              some (Call.IMemAllocator_SetProperties filter.source.pAllocator
                { cBuffers := 3, cbBuffer := 614400, cbAlign := 1, cbPrefix := 0 })) := by
  have hex := get_image_size_exact filter hw hh hb hfit
  refine ⟨hex, ?_⟩
  intro h1 h2 h3
  have hsize : get_image_size filter = 614400 := by
    rw [h1, h2, h3] at hex
    have h8 : (640 : Int) * 480 * ((16 : Nat) : Int) / 8 = 614400 := by decide
    rw [h8] at hex
    exact_mod_cast hex
  refine ⟨hsize, ?_⟩
  intro env
  have hreq : toLONG (get_image_size filter) = 614400 := by
    rw [hsize]
    decide
  simp only [vfw_capture_init_stream, hreq]
  split <;> rfl

/-- C20, witness: the 640 x 480 x 16 filter. -/
theorem C20_get_image_size_witness :
    get_image_size stoppedFilter = 614400 ∧
      (vfw_capture_init_stream cooperating stoppedFilter).calls.head? =
        some (Call.IMemAllocator_SetProperties 3
          { cBuffers := 3, cbBuffer := 614400, cbAlign := 1, cbPrefix := 0 }) :=
  have h := (C20_get_image_size stoppedFilter (by decide) (by decide) (by decide)
    (by decide)).2 rfl rfl rfl
  ⟨h.1, h.2 cooperating⟩

/-! ## Creation and device binding -/

/-- C21, counterexample: on the stopped filter, which has device 5 bound and `init` set,
with a property bag that reads and a backend whose `create` returns device 9, `PPB_Load`
does not fail: it returns `S_OK` and replaces the bound device 5 by 9. -/
theorem C21_rebinding_counterexample :
    stoppedFilter.device = 5 ∧
      stoppedFilter.init = true ∧
      (PPB_Load cooperating stoppedFilter).hr = S_OK ∧
      FAILED (PPB_Load cooperating stoppedFilter).hr = false ∧
      (PPB_Load cooperating stoppedFilter).filter.device = 9 ∧
      (PPB_Load cooperating stoppedFilter).filter.device ≠ stoppedFilter.device := by
  decide

/-- C21, as amended. Device binding: the filter `vfw_capture_create` builds (when the load
and the allocation succeed, in which case it returns `S_OK`) has `device = NULL`,
`init = FALSE` and `state = State_Stopped`. For every filter, bound or not:
when the property-bag read fails, `PPB_Load` returns the read's failure code without
calling `create` and leaves the filter unchanged;
when the read succeeds and `create` returns `NULL`, it returns `E_FAIL`, leaves `init` as
it was (so `FALSE` on a fresh filter) and stores `NULL` in `device`;
when the read succeeds and `create` returns a device, it returns `S_OK`, stores that
device, whatever was bound before, and sets `init`. -/
theorem C21_device_binding (env : Collaborators) (filter : vfw_capture) :
    ((vfw_capture_create true true).hr = S_OK ∧
      ∀ fresh, (vfw_capture_create true true).object = some fresh →
        fresh.device = 0 ∧ fresh.init = false ∧ fresh.state = State_Stopped) ∧
    (FAILED env.IPropertyBag_Read.1 = true →
      (PPB_Load env filter).hr = env.IPropertyBag_Read.1 ∧
      (PPB_Load env filter).filter = filter ∧
      (PPB_Load env filter).calls = [Call.IPropertyBag_Read]) ∧
    (FAILED env.IPropertyBag_Read.1 = false → env.create env.IPropertyBag_Read.2 = 0 →
      (PPB_Load env filter).hr = E_FAIL ∧
      (PPB_Load env filter).filter.init = filter.init ∧
      (filter.init = false → (PPB_Load env filter).filter.init = false) ∧
      (PPB_Load env filter).filter.device = 0 ∧
      (PPB_Load env filter).calls =
        [Call.IPropertyBag_Read, Call.create env.IPropertyBag_Read.2]) ∧
    (FAILED env.IPropertyBag_Read.1 = false → env.create env.IPropertyBag_Read.2 ≠ 0 →
      (PPB_Load env filter).hr = S_OK ∧
      (PPB_Load env filter).filter.device = env.create env.IPropertyBag_Read.2 ∧
      (PPB_Load env filter).filter.init = true ∧
      (PPB_Load env filter).filter =
        { filter with device := env.create env.IPropertyBag_Read.2, init := true }) := by
  refine ⟨⟨rfl, ?_⟩, ?_, ?_, ?_⟩
  · intro fresh h
    simp only [vfw_capture_create, Bool.not_true, Bool.false_eq_true, if_false,
      Option.some.injEq] at h
    subst h
    exact ⟨rfl, rfl, rfl⟩
  · intro h
    simp [PPB_Load, h]
  · intro h h0
    have hout : PPB_Load env filter =
        { hr := E_FAIL, filter := { filter with device := 0 },
          calls := [Call.IPropertyBag_Read, Call.create env.IPropertyBag_Read.2] } := by
      simp [PPB_Load, h, h0]
    rw [hout]
    exact ⟨rfl, rfl, fun hi => hi, rfl, rfl⟩
  · intro h h0
    have hout : PPB_Load env filter =
        { hr := S_OK,
          filter := { filter with device := env.create env.IPropertyBag_Read.2,
                                  init := true },
          calls := [Call.IPropertyBag_Read, Call.create env.IPropertyBag_Read.2] } := by
      simp [PPB_Load, h, h0]
    rw [hout]
    exact ⟨rfl, rfl, rfl, rfl⟩

/-! ## Sequences of transitions -/

/-- Each stream callback returns `S_OK` and leaves the state of the spec's table, provided
the allocator does not fail `SetProperties`. -/
theorem Transition.apply_table (env : Collaborators) (filter : vfw_capture) (t : Transition)
    (hcoop : ∀ a r, FAILED (env.IMemAllocator_SetProperties a r).1 = false) :
    (t.apply env filter).hr = S_OK ∧ (t.apply env filter).filter.state = t.expected := by
  cases t with
  | Prepare =>
    simp only [Transition.apply, Transition.expected]
    rw [init_stream_of_accepted env filter (hcoop _ _)]
    exact ⟨rfl, rfl⟩
  | Run time => exact ⟨rfl, rfl⟩
  | Pause => exact ⟨rfl, rfl⟩
  | Cleanup => exact ⟨rfl, rfl⟩

/-- Status and state after every call of a sequence of transitions, legal or not. -/
theorem run_transitions_table (env : Nat → Collaborators)
    (hcoop : ∀ k a r, FAILED ((env k).IMemAllocator_SetProperties a r).1 = false)
    (ts : List Transition) :
    ∀ (k : Nat) (filter : vfw_capture),
      (run_transitions env k filter ts).map (fun o => (o.hr, o.filter.state)) =
        ts.map (fun t => (S_OK, t.expected)) := by
  induction ts with
  | nil =>
    intro k filter
    rfl
  | cons t ts ih =>
    intro k filter
    simp only [run_transitions, List.map_cons, ih]
    rw [(Transition.apply_table (env k) filter t (hcoop k)).1,
      (Transition.apply_table (env k) filter t (hcoop k)).2]

/-- The stream callbacks leave the source pin, with its peer, media type and allocator, as
it was. -/
theorem Transition.apply_source (env : Collaborators) (filter : vfw_capture)
    (t : Transition) : (t.apply env filter).filter.source = filter.source := by
  cases t with
  | Prepare =>
    simp only [Transition.apply, vfw_capture_init_stream]
    split <;> rfl
  | Run time => rfl
  | Pause => rfl
  | Cleanup => rfl

/-- Along a sequence of transitions the source pin stays as it was at the start. -/
theorem run_transitions_source (env : Nat → Collaborators) (ts : List Transition) :
    ∀ (k : Nat) (filter : vfw_capture),
      ∀ o ∈ run_transitions env k filter ts, o.filter.source = filter.source := by
  induction ts with
  | nil =>
    intro k filter o ho
    simp [run_transitions] at ho
  | cons t ts ih =>
    intro k filter o ho
    simp only [run_transitions, List.mem_cons] at ho
    rcases ho with ho | ho
    · rw [ho]
      exact Transition.apply_source (env k) filter t
    · rw [ih (k + 1) _ o ho]
      exact Transition.apply_source (env k) filter t

/-- C22. Transition table over sequences: start from a filter in its initial state
`State_Stopped` whose pin is connected, so that it has a peer, a negotiated format and an
allocator, and take any finite sequence of Prepare (`vfw_capture_init_stream`), Run
(`vfw_capture_start_stream`), Pause (`vfw_capture_stop_stream`) and Cleanup
(`vfw_capture_cleanup_stream`) calls that follows the legal transitions (Prepare only from
Stopped, Run only from Paused or Running, Pause only from Running, Cleanup from any state
after a Prepare), with an allocator that never fails `SetProperties`. Then there is one
outcome per call, every call returns `S_OK`, the state after each call is `State_Paused`,
`State_Running`, `State_Paused`, `State_Stopped` respectively, and the pin is still
connected to the same peer and allocator after every call. -/
theorem C22_transition_table (env : Nat → Collaborators) (filter : vfw_capture)
    (ts : List Transition)
    (hstopped : filter.state = State_Stopped)
    (hpeer : filter.source.pin.peer ≠ 0)
    (hallocator : filter.source.pAllocator ≠ 0)
    (hcoop : ∀ k a r, FAILED ((env k).IMemAllocator_SetProperties a r).1 = false)
    (hlegal : legal_sequence filter.state false ts = true) :
    (run_transitions env 0 filter ts).length = ts.length ∧
      (run_transitions env 0 filter ts).map (fun o => (o.hr, o.filter.state)) =
        ts.map (fun t => (S_OK, t.expected)) ∧
      (∀ o ∈ run_transitions env 0 filter ts, o.hr = S_OK) ∧
      (∀ o ∈ run_transitions env 0 filter ts,
        o.filter.source = filter.source ∧ o.filter.source.pin.peer ≠ 0 ∧
        o.filter.source.pAllocator ≠ 0) ∧
      legal_sequence State_Stopped false ts = true := by
  have htable := run_transitions_table env hcoop ts 0 filter
  refine ⟨?_, htable, ?_, ?_, ?_⟩
  · have hlen := congrArg List.length htable
    simpa using hlen
  · intro o ho
    have hmem : (o.hr, o.filter.state) ∈
        (run_transitions env 0 filter ts).map (fun o => (o.hr, o.filter.state)) :=
      List.mem_map_of_mem _ ho
    rw [htable] at hmem
    obtain ⟨t, _, ht⟩ := List.mem_map.mp hmem
    exact (congrArg Prod.fst ht).symm
  · intro o ho
    have hsrc := run_transitions_source env ts 0 filter o ho
    rw [hsrc]
    exact ⟨rfl, hpeer, hallocator⟩
  · rw [← hstopped]
    exact hlegal

/-- C22, witness: the stopped filter, whose pin is connected with a 640 x 480 x 16 format
and allocator 3, driven through Prepare, Run, Pause, Run, Cleanup, Prepare, Cleanup with
cooperating collaborators. -/
theorem C22_transition_table_witness :
    stoppedFilter.state = State_Stopped ∧
      stoppedFilter.source.pin.peer ≠ 0 ∧
      stoppedFilter.source.pAllocator ≠ 0 ∧
      legal_sequence stoppedFilter.state false
        [Transition.Prepare, Transition.Run 0, Transition.Pause, Transition.Run 5,
         Transition.Cleanup, Transition.Prepare, Transition.Cleanup] = true ∧
      (run_transitions (fun _ => cooperating) 0 stoppedFilter
        [Transition.Prepare, Transition.Run 0, Transition.Pause, Transition.Run 5,
         Transition.Cleanup, Transition.Prepare, Transition.Cleanup]).map
          (fun o => (o.hr, o.filter.state)) =
        [(S_OK, State_Paused), (S_OK, State_Running), (S_OK, State_Paused),
         (S_OK, State_Running), (S_OK, State_Stopped), (S_OK, State_Paused),
         (S_OK, State_Stopped)] :=
  ⟨rfl, by decide, by decide, by decide,
    (C22_transition_table (fun _ => cooperating) stoppedFilter
      [Transition.Prepare, Transition.Run 0, Transition.Pause, Transition.Run 5,
       Transition.Cleanup, Transition.Prepare, Transition.Cleanup] rfl (by decide)
      (by decide) (fun _ _ _ => rfl) (by decide)).2.1⟩

/-! ## The acquisition thread -/

/-- In a run of the loop every sample handed out is released as often as it was obtained. -/
theorem stream_thread_loop_balance (env : Collaborators) (filter : vfw_capture)
    (size s : Nat) (states : List FILTER_STATE) :
    ∀ n, List.countP (Call.releases s) (stream_thread_loop env filter size states n).calls =
      List.countP (Call.acquires s) (stream_thread_loop env filter size states n).calls := by
  induction states with
  | nil =>
    intro n
    rfl
  | cons st rest ih =>
    intro n
    cases st with
    | State_Stopped => rfl
    | State_Paused =>
      simp only [stream_thread_loop, List.countP_cons, ih]
      rfl
    | State_Running =>
      simp only [stream_thread_loop]
      split
      · rename_i h
        simp [List.countP_cons, Call.releases, Call.acquires, h]
      · rename_i h
        split
        · simp [List.countP_cons, List.countP_append, stream_thread_fill, Call.releases,
            Call.acquires, h]
        · split
          · simp [List.countP_cons, List.countP_append, stream_thread_fill, Call.releases,
              Call.acquires, h]
          · simp [List.countP_cons, List.countP_append, stream_thread_fill, Call.releases,
              Call.acquires, h, ih]

/-- In a run of the loop there are as many releases, and as many `SetActualDataLength`
calls, as successful acquisitions. -/
theorem stream_thread_loop_counts (env : Collaborators) (filter : vfw_capture)
    (size : Nat) (states : List FILTER_STATE) :
    ∀ n, List.countP Call.isRelease (stream_thread_loop env filter size states n).calls =
        List.countP Call.isAcquire (stream_thread_loop env filter size states n).calls ∧
      List.countP Call.isSetActualDataLength
          (stream_thread_loop env filter size states n).calls =
        List.countP Call.isAcquire (stream_thread_loop env filter size states n).calls := by
  induction states with
  | nil =>
    intro n
    exact ⟨rfl, rfl⟩
  | cons st rest ih =>
    intro n
    cases st with
    | State_Stopped => exact ⟨rfl, rfl⟩
    | State_Paused =>
      simp only [stream_thread_loop, List.countP_cons, (ih n).1, (ih n).2]
      exact ⟨rfl, rfl⟩
    | State_Running =>
      simp only [stream_thread_loop]
      split
      · rename_i h
        simp [List.countP_cons, Call.isRelease, Call.isAcquire, Call.isSetActualDataLength, h]
      · rename_i h
        split
        · simp [List.countP_cons, List.countP_append, stream_thread_fill, Call.isRelease,
            Call.isAcquire, Call.isSetActualDataLength, h]
        · split
          · simp [List.countP_cons, List.countP_append, stream_thread_fill, Call.isRelease,
              Call.isAcquire, Call.isSetActualDataLength, h]
          · simp [List.countP_cons, List.countP_append, stream_thread_fill, Call.isRelease,
              Call.isAcquire, Call.isSetActualDataLength, h, (ih (n + 1)).1, (ih (n + 1)).2]

/-- Every `SetActualDataLength` call of the loop carries the loop's `image_size`. -/
theorem stream_thread_loop_length (env : Collaborators) (filter : vfw_capture) (size : Nat)
    (states : List FILTER_STATE) :
    ∀ n s len, Call.IMediaSample_SetActualDataLength s len ∈
        (stream_thread_loop env filter size states n).calls → len = size := by
  induction states with
  | nil =>
    intro n s len h
    simp [stream_thread_loop] at h
  | cons st rest ih =>
    intro n s len h
    cases st with
    | State_Stopped => simp [stream_thread_loop] at h
    | State_Paused =>
      simp only [stream_thread_loop, List.mem_cons] at h
      rcases h with h | h
      · cases h
      · exact ih n s len h
    | State_Running =>
      simp only [stream_thread_loop] at h
      split at h
      · simp at h
      · split at h
        · simp [stream_thread_fill] at h
          exact h.2
        · split at h
          · simp [stream_thread_fill] at h
            exact h.2
          · simp only [List.mem_append] at h
            rcases h with h | h
            · simp [stream_thread_fill] at h
              exact h.2
            · exact ih (n + 1) s len h

/-- The loop never looks at what the allocator answers to `SetProperties`. -/
theorem stream_thread_loop_ignores_SetProperties (env : Collaborators)
    (f : Nat → ALLOCATOR_PROPERTIES → HRESULT × ALLOCATOR_PROPERTIES)
    (filter : vfw_capture) (size : Nat) (states : List FILTER_STATE) :
    ∀ n, stream_thread_loop { env with IMemAllocator_SetProperties := f } filter size
        states n = stream_thread_loop env filter size states n := by
  induction states with
  | nil =>
    intro n
    rfl
  | cons st rest ih =>
    intro n
    cases st with
    | State_Stopped => rfl
    | State_Paused => simp only [stream_thread_loop, ih]
    | State_Running => simp only [stream_thread_loop, ih]

/-- The loop asks for a buffer at most once per observation of `State_Running`, and reads
a frame at most once per buffer request. -/
theorem stream_thread_loop_gated (env : Collaborators) (filter : vfw_capture) (size : Nat)
    (states : List FILTER_STATE) :
    ∀ n, List.countP Call.isGetDeliveryBuffer
          (stream_thread_loop env filter size states n).calls ≤
        List.count State_Running states ∧
      List.countP Call.isReadFrame (stream_thread_loop env filter size states n).calls ≤
        List.countP Call.isGetDeliveryBuffer
          (stream_thread_loop env filter size states n).calls ∧
      List.countP Call.isReceive (stream_thread_loop env filter size states n).calls ≤
        List.countP Call.isReadFrame (stream_thread_loop env filter size states n).calls := by
  induction states with
  | nil =>
    intro n
    simp [stream_thread_loop]
  | cons st rest ih =>
    intro n
    cases st with
    | State_Stopped => simp [stream_thread_loop]
    | State_Paused =>
      have h := ih n
      simp only [stream_thread_loop, List.countP_cons, Call.isGetDeliveryBuffer,
        Call.isReadFrame, Call.isReceive, List.count_cons]
      simp only [Bool.false_eq_true, if_false, Nat.add_zero]
      refine ⟨?_, h.2.1, h.2.2⟩
      have h1 := h.1
      simp at h1 ⊢
      exact h1
    | State_Running =>
      have h := ih (n + 1)
      simp only [stream_thread_loop]
      split
      · simp [List.countP_cons, Call.isGetDeliveryBuffer, Call.isReadFrame, Call.isReceive,
          List.count_cons]
      · split
        · simp [List.countP_cons, List.countP_append, stream_thread_fill,
            Call.isGetDeliveryBuffer, Call.isReadFrame, Call.isReceive, List.count_cons]
        · split
          · simp [List.countP_cons, List.countP_append, stream_thread_fill,
              Call.isGetDeliveryBuffer, Call.isReadFrame, Call.isReceive, List.count_cons]
          · simp only [List.countP_cons, List.countP_append, stream_thread_fill,
              Call.isGetDeliveryBuffer, Call.isReadFrame, Call.isReceive, List.count_cons,
              List.countP_nil]
            simp
            omega

/-- While it observes `State_Paused` the loop only sleeps. -/
theorem stream_thread_loop_paused (env : Collaborators) (filter : vfw_capture) (size : Nat)
    (m n : Nat) :
    stream_thread_loop env filter size (List.replicate m State_Paused) n =
      { returned := false, calls := List.replicate m Call.SleepConditionVariableCS } := by
  induction m with
  | zero => rfl
  | succ m ih => simp only [List.replicate_succ, stream_thread_loop, ih]

/-- The loop when the frame read first fails after `j` iterations that delivered. -/
theorem stream_thread_loop_read_failure (env : Collaborators) (filter : vfw_capture)
    (size : Nat) (rest : List FILTER_STATE) (j : Nat) :
    ∀ n,
      (∀ i, i < j + 1 → FAILED (env.GetDeliveryBuffer (n + i)).1 = false) →
      (∀ i, i < j → FAILED (env.IMemInputPin_Receive (n + i)) = false) →
      (∀ i, i < j → env.read_frame (n + i) = true) →
      env.read_frame (n + j) = false →
      (stream_thread_loop env filter size
          (List.replicate (j + 1) State_Running ++ rest) n).returned = true ∧
        List.countP Call.isReceive (stream_thread_loop env filter size
          (List.replicate (j + 1) State_Running ++ rest) n).calls = j ∧
        List.countP Call.isReadFrame (stream_thread_loop env filter size
          (List.replicate (j + 1) State_Running ++ rest) n).calls = j + 1 ∧
        List.countP Call.isRelease (stream_thread_loop env filter size
          (List.replicate (j + 1) State_Running ++ rest) n).calls = j + 1 ∧
        ∃ before, (stream_thread_loop env filter size
            (List.replicate (j + 1) State_Running ++ rest) n).calls =
          before ++ (stream_thread_fill filter size (env.GetDeliveryBuffer (n + j)).1
              (env.GetDeliveryBuffer (n + j)).2 ++
            [Call.IMediaSample_Release (env.GetDeliveryBuffer (n + j)).2]) := by
  induction j with
  | zero =>
    intro n hgdb _ _ hfail
    have h0 := hgdb 0 (by omega)
    simp only [Nat.add_zero] at h0 hfail
    simp only [Nat.zero_add, List.replicate_one, List.singleton_append, stream_thread_loop,
      h0, hfail, Nat.add_zero]
    refine ⟨by simp, by simp [stream_thread_fill, Call.isReceive],
      by simp [stream_thread_fill, Call.isReadFrame],
      by simp [stream_thread_fill, Call.isRelease], [], by simp⟩
  | succ j ih =>
    intro n hgdb hrecv hread hfail
    have h0 := hgdb 0 (by omega)
    have r0 := hrecv 0 (by omega)
    have f0 := hread 0 (by omega)
    simp only [Nat.add_zero] at h0 r0 f0
    have shift : ∀ i, n + (i + 1) = n + 1 + i := fun i => by omega
    have hrec := ih (n + 1)
      (fun i hi => by
        have := hgdb (i + 1) (by omega)
        rwa [shift] at this)
      (fun i hi => by
        have := hrecv (i + 1) (by omega)
        rwa [shift] at this)
      (fun i hi => by
        have := hread (i + 1) (by omega)
        rwa [shift] at this)
      (by rwa [shift] at hfail)
    obtain ⟨hret, hcr, hcf, hcl, before, hb⟩ := hrec
    have hstep : stream_thread_loop env filter size
        (List.replicate (j + 1 + 1) State_Running ++ rest) n =
        { stream_thread_loop env filter size
            (List.replicate (j + 1) State_Running ++ rest) (n + 1) with
          calls := (stream_thread_fill filter size (env.GetDeliveryBuffer n).1
              (env.GetDeliveryBuffer n).2 ++
            [Call.IMemInputPin_Receive filter.source.pMemInputPin (env.GetDeliveryBuffer n).2,
             Call.IMediaSample_Release (env.GetDeliveryBuffer n).2]) ++
            (stream_thread_loop env filter size
              (List.replicate (j + 1) State_Running ++ rest) (n + 1)).calls } := by
      rw [List.replicate_succ, List.cons_append]
      simp only [stream_thread_loop, h0, r0, f0]
      simp
    rw [hstep]
    refine ⟨hret, ?_, ?_, ?_, ?_⟩
    · simp only [List.countP_append, hcr]
      simp [stream_thread_fill, Call.isReceive, List.countP_cons]
      omega
    · simp only [List.countP_append, hcf]
      simp [stream_thread_fill, Call.isReadFrame, List.countP_cons]
      omega
    · simp only [List.countP_append, hcl]
      simp [stream_thread_fill, Call.isRelease, List.countP_cons]
      omega
    · refine ⟨(stream_thread_fill filter size (env.GetDeliveryBuffer n).1
              (env.GetDeliveryBuffer n).2 ++
            [Call.IMemInputPin_Receive filter.source.pMemInputPin (env.GetDeliveryBuffer n).2,
             Call.IMediaSample_Release (env.GetDeliveryBuffer n).2]) ++ before, ?_⟩
      simp only [hb, show n + 1 + j = n + (j + 1) by omega, List.append_assoc]

/-- C23. Frame length independent of the pool: in every run of `stream_thread`, every
`IMediaSample_SetActualDataLength` call carries `get_image_size` of the filter's
negotiated format, the value computed once before the loop, and there is one such call
for each buffer obtained. The run is the same whatever the allocator answers to
`SetProperties`, and `vfw_capture_init_stream` has the same outcome whatever properties
the allocator reports as granted (`ret_props` is never read). -/
theorem C23_frame_length (env : Collaborators) (filter : vfw_capture)
    (states : List FILTER_STATE) :
    (∀ s len, Call.IMediaSample_SetActualDataLength s len ∈
        (stream_thread env filter states).calls → len = get_image_size filter) ∧
      List.countP Call.isSetActualDataLength (stream_thread env filter states).calls =
        List.countP Call.isAcquire (stream_thread env filter states).calls ∧
      (∀ f : Nat → ALLOCATOR_PROPERTIES → HRESULT × ALLOCATOR_PROPERTIES,
        stream_thread { env with IMemAllocator_SetProperties := f } filter states =
          stream_thread env filter states) ∧
      (∀ granted : Nat → ALLOCATOR_PROPERTIES → ALLOCATOR_PROPERTIES,
        vfw_capture_init_stream
            { env with IMemAllocator_SetProperties := fun a r =>
                ((env.IMemAllocator_SetProperties a r).1, granted a r) } filter =
          vfw_capture_init_stream env filter) := by
  refine ⟨?_, ?_, ?_, ?_⟩
  · intro s len h
    exact stream_thread_loop_length env filter _ states 0 s len h
  · exact (stream_thread_loop_counts env filter _ states 0).2
  · intro f
    exact stream_thread_loop_ignores_SetProperties env f filter _ states 0
  · intro granted
    rfl

/-- C24. Acquisition loop gating: an iteration of `stream_thread` that observes
`State_Stopped` under the lock ends the thread without any call, so without acquiring a
buffer, reading the device or delivering; an observation of `State_Paused` only leads to
`SleepConditionVariableCS` and a fresh look at the state, so a thread that sees nothing but
`State_Paused` only sleeps and does not return; and buffers are requested at most once per
observation of `State_Running`, frames read at most once per buffer request and samples
delivered at most once per frame read, so without an observation of `State_Running` none
of these happens. -/
theorem C24_loop_gating (env : Collaborators) (filter : vfw_capture)
    (states : List FILTER_STATE) (size n : Nat) :
    stream_thread_loop env filter size (State_Stopped :: states) n =
        { returned := true, calls := [] } ∧
      stream_thread_loop env filter size (State_Paused :: states) n =
        { returned := (stream_thread_loop env filter size states n).returned,
          calls := Call.SleepConditionVariableCS ::
            (stream_thread_loop env filter size states n).calls } ∧
      (∀ m, stream_thread env filter (List.replicate m State_Paused) =
        { returned := false, calls := List.replicate m Call.SleepConditionVariableCS }) ∧
      List.countP Call.isGetDeliveryBuffer (stream_thread env filter states).calls ≤
        List.count State_Running states ∧
      List.countP Call.isReadFrame (stream_thread env filter states).calls ≤
        List.countP Call.isGetDeliveryBuffer (stream_thread env filter states).calls ∧
      List.countP Call.isReceive (stream_thread env filter states).calls ≤
        List.countP Call.isReadFrame (stream_thread env filter states).calls ∧
      (State_Running ∉ states →
        List.countP Call.isGetDeliveryBuffer (stream_thread env filter states).calls = 0 ∧
        List.countP Call.isReadFrame (stream_thread env filter states).calls = 0 ∧
        List.countP Call.isReceive (stream_thread env filter states).calls = 0) := by
  have hg := stream_thread_loop_gated env filter (get_image_size filter) states 0
  refine ⟨rfl, rfl, ?_, hg.1, hg.2.1, hg.2.2, ?_⟩
  · intro m
    exact stream_thread_loop_paused env filter _ m 0
  · intro hno
    have h0 : List.count State_Running states = 0 := List.count_eq_zero.mpr hno
    have h1 := hg.1
    have h2 := hg.2.1
    have h3 := hg.2.2
    simp only [stream_thread]
    omega

/-- C25. Fill failure is fatal: let the thread observe `State_Running` at least `k` times
in a row from its start (`k >= 1`), let every buffer request and every delivery succeed,
and let the backend's `read_frame` succeed on its first `k - 1` calls and fail on call
number `k`. Then `stream_thread` returns; it has delivered exactly `k - 1` samples, called
`read_frame` exactly `k` times and released `k` samples; and its last calls are the
acquisition of buffer number `k`, `SetActualDataLength`, `GetPointer`, the failing
`read_frame` and the release of that buffer, with no `Receive` for it. -/
theorem C25_fill_failure (env : Collaborators) (filter : vfw_capture)
    (rest : List FILTER_STATE) (k : Nat)
    (hk : 1 ≤ k)
    (hgdb : ∀ i, FAILED (env.GetDeliveryBuffer i).1 = false)
    (hrecv : ∀ i, FAILED (env.IMemInputPin_Receive i) = false)
    (hread : ∀ i, i < k - 1 → env.read_frame i = true)
    (hfail : env.read_frame (k - 1) = false) :
    (stream_thread env filter (List.replicate k State_Running ++ rest)).returned = true ∧
      List.countP Call.isReceive
        (stream_thread env filter (List.replicate k State_Running ++ rest)).calls = k - 1 ∧
      List.countP Call.isReadFrame
        (stream_thread env filter (List.replicate k State_Running ++ rest)).calls = k ∧
      List.countP Call.isRelease
        (stream_thread env filter (List.replicate k State_Running ++ rest)).calls = k ∧
      ∃ before,
        (stream_thread env filter (List.replicate k State_Running ++ rest)).calls =
          before ++
            ([Call.GetDeliveryBuffer (env.GetDeliveryBuffer (k - 1)).1
                (env.GetDeliveryBuffer (k - 1)).2,
              Call.IMediaSample_SetActualDataLength (env.GetDeliveryBuffer (k - 1)).2
                (get_image_size filter),
              Call.IMediaSample_GetPointer (env.GetDeliveryBuffer (k - 1)).2,
              Call.read_frame filter.device (env.GetDeliveryBuffer (k - 1)).2] ++
             [Call.IMediaSample_Release (env.GetDeliveryBuffer (k - 1)).2]) := by
  obtain ⟨j, rfl⟩ : ∃ j, k = j + 1 := ⟨k - 1, by omega⟩
  simp only [Nat.add_sub_cancel] at hread hfail ⊢
  have h := stream_thread_loop_read_failure env filter (get_image_size filter) rest j 0
    (fun i _ => by rw [Nat.zero_add]; exact hgdb i)
    (fun i _ => by rw [Nat.zero_add]; exact hrecv i)
    (fun i hi => by rw [Nat.zero_add]; exact hread i hi)
    (by rw [Nat.zero_add]; exact hfail)
  simp only [Nat.zero_add] at h
  exact h

/-- C25, witness: the backend's second `read_frame` fails (`k = 2`) while the thread sees
`State_Running` three times; exactly one sample is delivered and the thread returns. -/
theorem C25_fill_failure_witness :
    secondReadFails.read_frame 0 = true ∧
      secondReadFails.read_frame 1 = false ∧
      (stream_thread secondReadFails runningFilter
        (List.replicate 2 State_Running ++ [State_Running])).returned = true ∧
      List.countP Call.isReceive
        (stream_thread secondReadFails runningFilter
          (List.replicate 2 State_Running ++ [State_Running])).calls = 1 :=
  have h := C25_fill_failure secondReadFails runningFilter [State_Running] 2 (by decide)
    (fun _ => rfl) (fun _ => rfl)
    (fun i hi => by
      have h0 : i = 0 := by omega
      subst h0
      rfl)
    rfl
  ⟨rfl, rfl, h.1, h.2.1⟩

/-- C26. Delivery failure is fatal: in every iteration of `stream_thread` that obtained a
buffer and whose `read_frame` succeeded, the calls are the acquisition,
`SetActualDataLength`, `GetPointer`, `read_frame`, then one `Receive` of that sample on the
peer's input pin and one `Release` of it. If `Receive` answered a failure code the thread
returns right there, with no further call; otherwise the loop goes on with the next
observation of the state. -/
theorem C26_delivery (env : Collaborators) (filter : vfw_capture)
    (states : List FILTER_STATE) (size n : Nat)
    (hgdb : FAILED (env.GetDeliveryBuffer n).1 = false)
    (hread : env.read_frame n = true) :
    (FAILED (env.IMemInputPin_Receive n) = true →
      stream_thread_loop env filter size (State_Running :: states) n =
        { returned := true,
          calls :=
            [Call.GetDeliveryBuffer (env.GetDeliveryBuffer n).1 (env.GetDeliveryBuffer n).2,
             Call.IMediaSample_SetActualDataLength (env.GetDeliveryBuffer n).2 size,
             Call.IMediaSample_GetPointer (env.GetDeliveryBuffer n).2,
             Call.read_frame filter.device (env.GetDeliveryBuffer n).2,
             Call.IMemInputPin_Receive filter.source.pMemInputPin
               (env.GetDeliveryBuffer n).2,
             Call.IMediaSample_Release (env.GetDeliveryBuffer n).2] }) ∧
    (FAILED (env.IMemInputPin_Receive n) = false →
      stream_thread_loop env filter size (State_Running :: states) n =
        { returned := (stream_thread_loop env filter size states (n + 1)).returned,
          calls :=
            [Call.GetDeliveryBuffer (env.GetDeliveryBuffer n).1 (env.GetDeliveryBuffer n).2,
             Call.IMediaSample_SetActualDataLength (env.GetDeliveryBuffer n).2 size,
             Call.IMediaSample_GetPointer (env.GetDeliveryBuffer n).2,
             Call.read_frame filter.device (env.GetDeliveryBuffer n).2,
             Call.IMemInputPin_Receive filter.source.pMemInputPin
               (env.GetDeliveryBuffer n).2,
             Call.IMediaSample_Release (env.GetDeliveryBuffer n).2] ++
            (stream_thread_loop env filter size states (n + 1)).calls }) := by
  constructor
  · intro hr
    simp [stream_thread_loop, stream_thread_fill, hgdb, hread, hr]
  · intro hr
    simp [stream_thread_loop, stream_thread_fill, hgdb, hread, hr]

/-- C26, witness: with a peer whose `Receive` fails, the running thread delivers its first
sample, releases it and returns. -/
theorem C26_delivery_witness :
    FAILED (({ cooperating with IMemInputPin_Receive := fun _ => E_FAIL } :
        Collaborators).IMemInputPin_Receive 0) = true ∧
      stream_thread_loop { cooperating with IMemInputPin_Receive := fun _ => E_FAIL }
          runningFilter 614400 (State_Running :: [State_Running]) 0 =
        { returned := true,
          calls := [Call.GetDeliveryBuffer S_OK 100,
                    Call.IMediaSample_SetActualDataLength 100 614400,
                    Call.IMediaSample_GetPointer 100,
                    Call.read_frame 5 100,
                    Call.IMemInputPin_Receive 4 100,
                    Call.IMediaSample_Release 100] } :=
  ⟨rfl,
    (C26_delivery { cooperating with IMemInputPin_Receive := fun _ => E_FAIL }
      runningFilter [State_Running] 614400 0 rfl rfl).1 rfl⟩

/-- C28. Buffer balance in the acquisition loop: in every run of `stream_thread`, whatever
the buffer requests, frame reads and deliveries answer, every sample is released exactly
as often as it was obtained from `GetDeliveryBuffer`, so the number of releases equals the
number of successful acquisitions; and an iteration whose `GetDeliveryBuffer` fails ends
the thread with that call as its only one: no release and no device read. -/
theorem C28_buffer_balance (env : Collaborators) (filter : vfw_capture)
    (states : List FILTER_STATE) :
    (∀ s, List.countP (Call.releases s) (stream_thread env filter states).calls =
        List.countP (Call.acquires s) (stream_thread env filter states).calls) ∧
      List.countP Call.isRelease (stream_thread env filter states).calls =
        List.countP Call.isAcquire (stream_thread env filter states).calls ∧
      (∀ (size n : Nat) (rest : List FILTER_STATE),
        FAILED (env.GetDeliveryBuffer n).1 = true →
          stream_thread_loop env filter size (State_Running :: rest) n =
            { returned := true,
              calls := [Call.GetDeliveryBuffer (env.GetDeliveryBuffer n).1
                (env.GetDeliveryBuffer n).2] }) := by
  refine ⟨?_, ?_, ?_⟩
  · intro s
    exact stream_thread_loop_balance env filter _ s states 0
  · exact (stream_thread_loop_counts env filter _ states 0).1
  · intro size n rest h
    simp [stream_thread_loop, h]

/-! ## The two state variables -/

/-- C27, counterexample: on the stopped filter, whose pin is connected and whose two state
fields are both `State_Stopped`, `vfw_capture_init_stream` succeeds and sets the filter's
own state to `State_Paused`, yet right afterwards `vfw_capture_wait_state` returns `S_OK`,
not `VFW_S_CANT_CUE`, and `AMStreamConfig_SetFormat` returns `S_OK`, not
`VFW_E_NOT_STOPPED`: both read the framework's state field, which the callback has not
written. Likewise, on the running filter, right after `vfw_capture_cleanup_stream` has set
the filter's own state to `State_Stopped`, `AMStreamConfig_SetFormat` still returns
`VFW_E_NOT_STOPPED`. -/
theorem C27_single_state_field_counterexample :
    stoppedFilter.state = State_Stopped ∧
      stoppedFilter.filter.state = State_Stopped ∧
      stoppedFilter.source.pin.peer ≠ 0 ∧
      stoppedFilter.source.pAllocator ≠ 0 ∧
      (vfw_capture_init_stream cooperating stoppedFilter).hr = S_OK ∧
      (vfw_capture_init_stream cooperating stoppedFilter).filter.state = State_Paused ∧
      (vfw_capture_wait_state
        (vfw_capture_init_stream cooperating stoppedFilter).filter 0).hr = S_OK ∧
      (vfw_capture_wait_state
        (vfw_capture_init_stream cooperating stoppedFilter).filter 0).hr ≠
          VFW_S_CANT_CUE ∧
      (AMStreamConfig_SetFormat cooperating
        (vfw_capture_init_stream cooperating stoppedFilter).filter
        (some mt640x480x16)).hr = S_OK ∧
      (AMStreamConfig_SetFormat cooperating
        (vfw_capture_init_stream cooperating stoppedFilter).filter
        (some mt640x480x16)).hr ≠ VFW_E_NOT_STOPPED ∧
      runningFilter.state = State_Running ∧
      runningFilter.filter.state = State_Running ∧
      (vfw_capture_cleanup_stream cooperating runningFilter).filter.state = State_Stopped ∧
      (AMStreamConfig_SetFormat cooperating
        (vfw_capture_cleanup_stream cooperating runningFilter).filter
        (some mt640x480x16)).hr = VFW_E_NOT_STOPPED := by
  decide

/-- C27, as amended. Two state fields: the verdicts of `vfw_capture_wait_state` and of
`AMStreamConfig_SetFormat` are decided by the framework's state field
(`strmbase_filter.state`) and do not depend on the filter's own field
(`vfw_capture.state`), which is the one `vfw_capture_init_stream`,
`vfw_capture_start_stream`, `vfw_capture_stop_stream` and `vfw_capture_cleanup_stream`
write. These four callbacks leave the framework part of the filter as it was, so right
after any of them, `vfw_capture_init_stream` and `vfw_capture_cleanup_stream` in
particular, `vfw_capture_wait_state` and `AMStreamConfig_SetFormat` answer as they did
right before. `vfw_capture_wait_state` returns `VFW_S_CANT_CUE` exactly when the
framework's field is `State_Paused`, and `AMStreamConfig_SetFormat` returns
`VFW_E_NOT_STOPPED` whenever the framework's field is not `State_Stopped`. -/
theorem C27_two_state_fields (env : Collaborators) (filter : vfw_capture)
    (timeout : Nat) (time : Int) (pmt : Option AM_MEDIA_TYPE) :
    (∀ st : FILTER_STATE,
      (vfw_capture_wait_state { filter with state := st } timeout).hr =
        (vfw_capture_wait_state filter timeout).hr ∧
      (AMStreamConfig_SetFormat env { filter with state := st } pmt).hr =
        (AMStreamConfig_SetFormat env filter pmt).hr) ∧
    ((vfw_capture_init_stream env filter).filter.filter = filter.filter ∧
      (vfw_capture_start_stream filter time).filter.filter = filter.filter ∧
      (vfw_capture_stop_stream filter).filter.filter = filter.filter ∧
      (vfw_capture_cleanup_stream env filter).filter.filter = filter.filter) ∧
    ((vfw_capture_wait_state (vfw_capture_init_stream env filter).filter timeout).hr =
        (vfw_capture_wait_state filter timeout).hr ∧
      (vfw_capture_wait_state (vfw_capture_start_stream filter time).filter timeout).hr =
        (vfw_capture_wait_state filter timeout).hr ∧
      (vfw_capture_wait_state (vfw_capture_stop_stream filter).filter timeout).hr =
        (vfw_capture_wait_state filter timeout).hr ∧
      (vfw_capture_wait_state (vfw_capture_cleanup_stream env filter).filter timeout).hr =
        (vfw_capture_wait_state filter timeout).hr) ∧
    ((AMStreamConfig_SetFormat env (vfw_capture_init_stream env filter).filter pmt).hr =
        (AMStreamConfig_SetFormat env filter pmt).hr ∧
      (AMStreamConfig_SetFormat env (vfw_capture_start_stream filter time).filter pmt).hr =
        (AMStreamConfig_SetFormat env filter pmt).hr ∧
      (AMStreamConfig_SetFormat env (vfw_capture_stop_stream filter).filter pmt).hr =
        (AMStreamConfig_SetFormat env filter pmt).hr ∧
      (AMStreamConfig_SetFormat env (vfw_capture_cleanup_stream env filter).filter pmt).hr =
        (AMStreamConfig_SetFormat env filter pmt).hr) ∧
    (((vfw_capture_wait_state filter timeout).hr = VFW_S_CANT_CUE ↔
        filter.filter.state = State_Paused) ∧
      (filter.filter.state ≠ State_Stopped →
        (AMStreamConfig_SetFormat env filter pmt).hr = VFW_E_NOT_STOPPED)) := by
  have hinit : (vfw_capture_init_stream env filter).filter = filter ∨
      (vfw_capture_init_stream env filter).filter =
        { filter with state := State_Paused, thread := env.CreateThread } := by
    simp only [vfw_capture_init_stream]
    split
    · exact Or.inl rfl
    · exact Or.inr rfl
  have hset : ∀ f g : vfw_capture, f.filter = g.filter → f.source = g.source →
      f.device = g.device →
      (AMStreamConfig_SetFormat env f pmt).hr = (AMStreamConfig_SetFormat env g pmt).hr := by
    intro f g h1 h2 h3
    simp only [AMStreamConfig_SetFormat, h1, h2, h3]
    split
    · rfl
    · split
      · rfl
      · split
        · rfl
        · split
          · rfl
          · split <;> rfl
  refine ⟨?_, ⟨?_, rfl, rfl, rfl⟩, ⟨?_, rfl, rfl, rfl⟩, ⟨?_, ?_, ?_, ?_⟩, ?_, ?_⟩
  · intro st
    exact ⟨rfl, hset _ _ rfl rfl rfl⟩
  · rcases hinit with h | h <;> rw [h]
  · rcases hinit with h | h
    · rw [h]
    · rw [h]
      rfl
  · rcases hinit with h | h <;> rw [h]
    exact hset _ _ rfl rfl rfl
  · exact hset _ _ rfl rfl rfl
  · exact hset _ _ rfl rfl rfl
  · exact hset _ _ rfl rfl rfl
  · simp only [vfw_capture_wait_state]
    constructor
    · intro h
      by_contra hn
      rw [if_neg hn] at h
      exact absurd h (by decide)
    · intro h
      rw [if_pos h]
  · intro hne
    simp [AMStreamConfig_SetFormat, hne]

/-! ## Capability index -/

/-- C29. Capability index rejection: for every backend and every signed index `i`,
`AMStreamConfig_GetStreamCaps` returns `S_FALSE` if and only if `i` is greater than the
backend's `get_caps_count`, and then it neither calls `get_caps` nor stores a media type.
Every other index, `i = count` and, for a count that is not negative, every negative `i`
included, is passed unchanged to the backend's `get_caps` and, the allocations succeeding,
the call returns `S_OK` with the media type the backend wrote. -/
theorem C29_GetStreamCaps_index (env : Collaborators) (filter : vfw_capture) (i : Int)
    (halloc : ∀ k, env.CoTaskMemAlloc k = true) :
    ((AMStreamConfig_GetStreamCaps env filter i).hr = S_FALSE ↔
        i > env.get_caps_count filter.device) ∧
      (i > env.get_caps_count filter.device →
        (AMStreamConfig_GetStreamCaps env filter i).pmt = none ∧
        (AMStreamConfig_GetStreamCaps env filter i).vscc = none ∧
        ∀ c ∈ (AMStreamConfig_GetStreamCaps env filter i).calls, c.isGetCaps = false) ∧
      (i ≤ env.get_caps_count filter.device →
        (AMStreamConfig_GetStreamCaps env filter i).hr = S_OK ∧
        (AMStreamConfig_GetStreamCaps env filter i).calls =
          [Call.get_caps_count filter.device, Call.get_caps filter.device i] ∧
        (AMStreamConfig_GetStreamCaps env filter i).pmt =
          some { (env.get_caps filter.device i).1 with
            cbFormat := sizeof_VIDEOINFOHEADER,
            pbFormat := (env.get_caps filter.device i).2.1 }) ∧
      (i = env.get_caps_count filter.device ∨ (i < 0 ∧ 0 ≤ env.get_caps_count filter.device) →
        (AMStreamConfig_GetStreamCaps env filter i).hr = S_OK ∧
        Call.get_caps filter.device i ∈ (AMStreamConfig_GetStreamCaps env filter i).calls) := by
  have hbig : i > env.get_caps_count filter.device →
      AMStreamConfig_GetStreamCaps env filter i =
        { hr := S_FALSE, filter := filter, calls := [Call.get_caps_count filter.device],
          pmt := none, vscc := none } := by
    intro h
    simp [AMStreamConfig_GetStreamCaps, h]
  have hsmall : i ≤ env.get_caps_count filter.device →
      AMStreamConfig_GetStreamCaps env filter i =
        { hr := S_OK, filter := filter,
          calls := [Call.get_caps_count filter.device, Call.get_caps filter.device i],
          pmt := some { (env.get_caps filter.device i).1 with
            cbFormat := sizeof_VIDEOINFOHEADER,
            pbFormat := (env.get_caps filter.device i).2.1 },
          vscc := some (env.get_caps filter.device i).2.2 } := by
    intro h
    simp [AMStreamConfig_GetStreamCaps, not_lt.mpr h, halloc]
  refine ⟨⟨?_, ?_⟩, ?_, ?_, ?_⟩
  · intro h
    by_contra hn
    rw [hsmall (not_lt.mp hn)] at h
    have h2 : S_OK = S_FALSE := h
    exact absurd h2 (by decide)
  · intro h
    rw [hbig h]
  · intro h
    rw [hbig h]
    refine ⟨rfl, rfl, ?_⟩
    intro c hc
    simp only [List.mem_singleton] at hc
    subst hc
    rfl
  · intro h
    rw [hsmall h]
    exact ⟨rfl, rfl, rfl⟩
  · intro h
    have hle : i ≤ env.get_caps_count filter.device := by
      rcases h with h | h
      · exact le_of_eq h
      · exact le_trans (le_of_lt h.1) h.2
    rw [hsmall hle]
    exact ⟨rfl, by simp⟩

/-- C29, witness: a backend with two catalogue entries; index 3 gives `S_FALSE`, while
index 2 and index -1 are passed to `get_caps` and give `S_OK`. -/
theorem C29_GetStreamCaps_index_witness :
    cooperating.get_caps_count stoppedFilter.device = 2 ∧
      (AMStreamConfig_GetStreamCaps cooperating stoppedFilter 3).hr = S_FALSE ∧
      (AMStreamConfig_GetStreamCaps cooperating stoppedFilter 2).hr = S_OK ∧
      (AMStreamConfig_GetStreamCaps cooperating stoppedFilter (-1)).hr = S_OK ∧
      (AMStreamConfig_GetStreamCaps cooperating stoppedFilter (-1)).calls =
        [Call.get_caps_count 5, Call.get_caps 5 (-1)] :=
  ⟨rfl,
    (C29_GetStreamCaps_index cooperating stoppedFilter 3 (fun _ => rfl)).1.mpr (by decide),
    ((C29_GetStreamCaps_index cooperating stoppedFilter 2 (fun _ => rfl)).2.2.1
      (by decide)).1,
    ((C29_GetStreamCaps_index cooperating stoppedFilter (-1) (fun _ => rfl)).2.2.1
      (by decide)).1,
    ((C29_GetStreamCaps_index cooperating stoppedFilter (-1) (fun _ => rfl)).2.2.1
      (by decide)).2.1⟩

/-! ## `DrawTextW` and `DrawTextA` -/

/-- C30, the code at the failing input: with `flags = DT_TABSTOP | 0x400`, whose bits 8-15
hold the tab length 4, `DrawTextW` and `DrawTextA` pass the tab length 1, not 4, because
the tab length is computed with the logical `&&` instead of the bitwise `&`; with
`flags = DT_TABSTOP` alone they pass 0, and with `flags = DT_TABSTOP | 0x10000`, whose bits
8-15 are zero, they pass 1. The flags are passed with bits 8-15 cleared, and without
`DT_TABSTOP` the flags are passed unchanged with tab length 0. -/
theorem C30_DrawText_tab_length :
    (0x480 &&& DT_TABSTOP ≠ 0 ∧ (0x480 >>> 8) &&& 0xff = 4) ∧
      (DrawTextW 1 [] 0 2 0x480).dtp.iTabLength = 1 ∧
      (DrawTextA 1 [] 0 2 0x480).dtp.iTabLength = 1 ∧
      (DrawTextW 1 [] 0 2 0x480).flags = 0x80 ∧
      (DrawTextA 1 [] 0 2 0x480).flags = 0x80 ∧
      (DrawTextW 1 [] 0 2 0x80).dtp.iTabLength = 0 ∧
      (DrawTextW 1 [] 0 2 0x10080).dtp.iTabLength = 1 ∧
      (0x10080 >>> 8) &&& 0xff = 0 ∧
      (DrawTextW 1 [] 0 2 0x1234F).flags = 0x1234F ∧
      (DrawTextW 1 [] 0 2 0x1234F).dtp.iTabLength = 0 ∧
      (DrawTextA 1 [] 0 2 0x1234F).flags = 0x1234F ∧
      (DrawTextA 1 [] 0 2 0x1234F).dtp.iTabLength = 0 := by
  decide

end VfwCapture
